import Mathlib

/-!
# Verification of the ECL `EstimatorInterface` sensor-ingestion front-end

A shallow embedding of `src/EKF/estimator_interface.cpp` (the sensor intake
and time-alignment facade of the ECL extended Kalman filter), together with
proofs settling the specification claims about it.

Modelling conventions:
* `uint64_t` microsecond timestamps are `ℕ`; C unsigned subtraction is
  `u64sub`, which wraps modulo `2^64` exactly as the hardware does.
* `float` quantities are `ℚ`.  The claims under verification are structural
  (branch selection, which formula is computed, what is pushed where), so the
  exact-rational model is the faithful one; float rounding is not modelled.
* The class header `estimator_interface.h` is not part of the sources, so the
  member-field set is reconstructed from the `.cpp` uses, and the handful of
  entities that live outside the `.cpp` (the `RingBuffer` operations, the
  fusion-mode bit masks, the `FILTER_UPDATE_PERIOD_MS` constant, the external
  down-sampler `collect_imu`, `collect_gps` and `map_projection_project`) are
  modelled from the specification; each such definition carries a doc comment
  saying so.
* The vibration metrics (`_vibe_metrics`) use the Euclidean norm of float
  3-vectors, an irrational quantity; no claim refers to them, so they (and the
  `_delta_ang_prev`/`_delta_vel_prev` fields that only feed them) are left out
  of the embedded state.
-/

namespace ECL

/-- `uint64_t` subtraction `a - b`: wraps modulo `2^64`. -/
def u64sub (a b : ℕ) : ℕ := (((a : ℤ) - (b : ℤ)) % (2 ^ 64 : ℤ)).toNat

/-- On in-range operands, `u64sub` is plain subtraction. -/
theorem u64sub_of_le {a b : ℕ} (hba : b ≤ a) (ha : a < 2 ^ 64) :
    u64sub a b = a - b := by
  unfold u64sub
  have h0 : (0 : ℤ) ≤ (a : ℤ) - b := by
    have : (b : ℤ) ≤ (a : ℤ) := by exact_mod_cast hba
    linarith
  have h1 : (a : ℤ) - b < 2 ^ 64 := by
    have : (a : ℤ) < 2 ^ 64 := by exact_mod_cast ha
    have hb : (0 : ℤ) ≤ (b : ℤ) := Int.ofNat_nonneg b
    linarith
  rw [Int.emod_eq_of_lt h0 h1]
  omega

/-- `math::constrain(v, lo, hi)` from `mathlib/mathlib.h`:
returns `lo` when `v < lo`, `hi` when `v > hi`, else `v`. -/
def constrain (v lo hi : ℚ) : ℚ := if v < lo then lo else if v > hi then hi else v

/-- A float 3-vector (`Vector3f`). -/
structure V3 where
  x : ℚ
  y : ℚ
  z : ℚ
  deriving DecidableEq, Repr

/-- A float 2-vector (`Vector2f`). -/
structure V2 where
  x : ℚ
  y : ℚ
  deriving DecidableEq, Repr

def V3.zero : V3 := ⟨0, 0, 0⟩

def V2.zero : V2 := ⟨0, 0⟩

def V3.neg (v : V3) : V3 := ⟨-v.x, -v.y, -v.z⟩

def V3.sdiv (v : V3) (s : ℚ) : V3 := ⟨v.x / s, v.y / s, v.z / s⟩

def V2.sdiv (v : V2) (s : ℚ) : V2 := ⟨v.x / s, v.y / s⟩

def V2.neg (v : V2) : V2 := ⟨-v.x, -v.y⟩

/-! ## Sample records (`common.h` data model, reconstructed from the `.cpp`
field uses and the specification's §3 data model). -/

structure imuSample where
  time_us : ℕ
  delta_ang : V3
  delta_vel : V3
  delta_ang_dt : ℚ
  delta_vel_dt : ℚ
  deriving DecidableEq, Repr

instance : Inhabited imuSample := ⟨⟨0, V3.zero, V3.zero, 0, 0⟩⟩

structure magSample where
  time_us : ℕ
  mag : V3
  deriving DecidableEq, Repr

structure gpsSample where
  time_us : ℕ
  pos : V2
  hgt : ℚ
  vel : V3
  sacc : ℚ
  hacc : ℚ
  vacc : ℚ
  deriving DecidableEq, Repr

structure baroSample where
  time_us : ℕ
  hgt : ℚ
  deriving DecidableEq, Repr

structure airspeedSample where
  time_us : ℕ
  true_airspeed : ℚ
  eas2tas : ℚ
  deriving DecidableEq, Repr

structure rangeSample where
  time_us : ℕ
  rng : ℚ
  deriving DecidableEq, Repr

structure flowSample where
  time_us : ℕ
  quality : ℕ
  flowRadXY : V2
  gyroXYZ : V3
  flowRadXYcomp : V2
  dt : ℚ
  deriving DecidableEq, Repr

structure extVisionSample where
  time_us : ℕ
  quat : ℚ × ℚ × ℚ × ℚ
  posNED : V3
  angErr : ℚ
  posErr : ℚ
  deriving DecidableEq, Repr

structure auxVelSample where
  time_us : ℕ
  velNE : V2
  velVarNE : V2
  deriving DecidableEq, Repr

structure dragSample where
  time_us : ℕ
  accelXY : V2
  deriving DecidableEq, Repr

/-- Modelled from the spec (§4.1): `RingBuffer<T>`, a bounded FIFO ordered by
arrival; `push` overwrites the oldest element when full, `allocate` reserves a
fresh capacity, `get_length` returns the capacity.  The element list is kept
oldest-first. -/
structure RB (α : Type) where
  cap : ℕ
  data : List α
  deriving DecidableEq, Repr

namespace RB

def empty (α : Type) : RB α := ⟨0, []⟩

def get_length {α} (b : RB α) : ℕ := b.cap

/-- Modelled from the spec: `allocate(length)` reserves capacity `n`,
starting empty. -/
def allocate (α : Type) (n : ℕ) : RB α := ⟨n, []⟩

/-- Modelled from the spec: `push` appends, dropping the oldest when full. -/
def push {α} (b : RB α) (s : α) : RB α :=
  if b.data.length < b.cap then ⟨b.cap, b.data ++ [s]⟩
  else ⟨b.cap, b.data.drop 1 ++ [s]⟩

/-- Modelled from the spec: `get_oldest` returns the oldest retained element
(unspecified on an empty buffer; the C++ result is indeterminate there). -/
def get_oldest {α} [Inhabited α] (b : RB α) : α := b.data.headD default

def unallocate (α : Type) : RB α := ⟨0, []⟩

/-- Modelled from the spec: `read_first_older_than(t, out)` returns the sample
whose `time_us` is the greatest value `≤ t`, or none if no such sample
exists. -/
def read_first_older_than (b : RB imuSample) (t : ℕ) : Option imuSample :=
  (b.data.filter (fun s => s.time_us ≤ t)).foldl
    (fun acc s =>
      match acc with
      | none => some s
      | some a => if a.time_us ≤ s.time_us then some s else some a)
    none

end RB

/-! ## Parameters and message types -/

/-- Modelled from the spec (§6, `common.h` is not in the sources): the fusion
mode bitmask values used by this file. -/
def MASK_USE_GPS : ℕ := 1

/-- Modelled from the spec: drag-fusion bit of the fusion-mode bitmask. -/
def MASK_USE_DRAG : ℕ := 32

/-- Modelled from the spec: `vdist_sensor_type` value selecting GPS as the
vertical distance sensor. -/
def VDIST_SENSOR_GPS : ℕ := 1

/-- The parameter record (`_params`).  The delay parameters are millisecond
offsets; their header types are not in the sources, so following the spec's
formulas they are modelled as naturals.  `FILTER_UPDATE_PERIOD_MS` is a build
constant defined outside the sources; modelled from the spec as a parameter
carried here. -/
structure Params where
  mag_delay_ms : ℕ
  range_delay_ms : ℕ
  gps_delay_ms : ℕ
  flow_delay_ms : ℕ
  ev_delay_ms : ℕ
  auxvel_delay_ms : ℕ
  min_delay_ms : ℕ
  airspeed_delay_ms : ℕ
  baro_delay_ms : ℕ
  sensor_interval_min_ms : ℕ
  fusion_mode : ℕ
  vdist_sensor_type : ℕ
  flow_rate_max : ℚ
  flow_qual_min : ℕ
  filter_update_period_ms : ℕ
  deriving DecidableEq, Repr

/-- The `gps_message` struct of the intake surface. -/
structure gps_message where
  time_usec : ℕ
  fix_type : ℕ
  vel_ned : V3
  vel_ned_valid : Bool
  sacc : ℚ
  eph : ℚ
  epv : ℚ
  alt : ℤ
  lat : ℤ
  lon : ℤ
  deriving DecidableEq, Repr

/-- The `flow_message` struct.  `gyrodata_finite` records, per component, the
value of `PX4_ISFINITE` on the driver float (false models a NaN/Inf payload,
whose numeric field is then meaningless). -/
structure flow_message where
  flowdata : V2
  gyrodata : V3
  gyrodata_finite : Bool × Bool × Bool
  dt : ℕ
  quality : ℕ
  deriving DecidableEq, Repr

/-- The `ext_vision_message` struct. -/
structure ext_vision_message where
  quat : ℚ × ℚ × ℚ × ℚ
  posNED : V3
  angErr : ℚ
  posErr : ℚ
  deriving DecidableEq, Repr

/-- The mutable member state of `EstimatorInterface` used by
`estimator_interface.cpp` (header reconstructed from the `.cpp` uses). -/
structure EstimatorState where
  initialised : Bool
  dt_imu_avg : ℚ
  imu_ticks : ℕ
  imu_updated : Bool
  imu_sample_delayed : imuSample
  imu_sample_new : imuSample
  min_obs_interval_us : ℕ
  imu_buffer_length : ℕ
  obs_buffer_length : ℕ
  time_last_imu : ℕ
  time_last_gps : ℕ
  time_last_mag : ℕ
  time_last_baro : ℕ
  time_last_range : ℕ
  time_last_airspeed : ℕ
  time_last_optflow : ℕ
  time_last_ext_vision : ℕ
  time_last_auxvel : ℕ
  fault_status : ℕ
  gps_speed_valid : Bool
  imu_buffer : RB imuSample
  mag_buffer : RB magSample
  gps_buffer : RB gpsSample
  baro_buffer : RB baroSample
  range_buffer : RB rangeSample
  airspeed_buffer : RB airspeedSample
  flow_buffer : RB flowSample
  ext_vision_buffer : RB extVisionSample
  auxvel_buffer : RB auxVelSample
  drag_buffer : RB dragSample
  mag_buffer_fail : Bool
  gps_buffer_fail : Bool
  baro_buffer_fail : Bool
  range_buffer_fail : Bool
  airspeed_buffer_fail : Bool
  flow_buffer_fail : Bool
  ev_buffer_fail : Bool
  auxvel_buffer_fail : Bool
  drag_buffer_fail : Bool
  drag_sample_count : ℕ
  drag_down_sampled : dragSample
  drag_sample_time_dt : ℚ
  deriving DecidableEq, Repr

/-! ## Operations (embedding of `estimator_interface.cpp`) -/

/-- `EstimatorInterface::unallocate_buffers` (lines 575–590): releases every
buffer.  The `_output_buffer`/`_output_vert_buffer` pair is consumed only by
the external EKF core and is not part of the embedded state. -/
def unallocate_buffers (st : EstimatorState) : EstimatorState :=
  { st with
    imu_buffer := RB.unallocate imuSample
    gps_buffer := RB.unallocate gpsSample
    mag_buffer := RB.unallocate magSample
    baro_buffer := RB.unallocate baroSample
    range_buffer := RB.unallocate rangeSample
    airspeed_buffer := RB.unallocate airspeedSample
    flow_buffer := RB.unallocate flowSample
    ext_vision_buffer := RB.unallocate extVisionSample
    drag_buffer := RB.unallocate dragSample
    auxvel_buffer := RB.unallocate auxVelSample }

/-- `EstimatorInterface::initialise_interface` (lines 518–573).  `allocOk` is
the outcome of the three `allocate` calls on the IMU/output buffers (the
allocator is platform code outside the sources).  Note `ceilf(x * 0.5f)` on a
natural `x` is `(x + 1) / 2`. -/
def initialise_interface (p : Params) (allocOk : Bool) (st : EstimatorState)
    (timestamp : ℕ) : Bool × EstimatorState :=
  let max_time_delay_ms :=
    max p.mag_delay_ms (max p.range_delay_ms (max p.gps_delay_ms
      (max p.flow_delay_ms (max p.ev_delay_ms (max p.auxvel_delay_ms
        (max p.min_delay_ms (max p.airspeed_delay_ms p.baro_delay_ms)))))))
  let imu_len := max_time_delay_ms / p.filter_update_period_ms + 1
  let ekf_delay_ms := max_time_delay_ms + (max_time_delay_ms + 1) / 2
  let obs_len := min (ekf_delay_ms / p.sensor_interval_min_ms + 1) imu_len
  let st := { st with imu_buffer_length := imu_len, obs_buffer_length := obs_len }
  if !allocOk then
    (false, unallocate_buffers st)
  else
    (true,
      { st with
        imu_buffer := RB.allocate imuSample imu_len
        dt_imu_avg := 0
        imu_sample_delayed :=
          { time_us := timestamp, delta_ang := V3.zero, delta_vel := V3.zero,
            delta_ang_dt := 0, delta_vel_dt := 0 }
        imu_ticks := 0
        initialised := false
        time_last_imu := 0
        time_last_gps := 0
        time_last_mag := 0
        time_last_baro := 0
        time_last_range := 0
        time_last_airspeed := 0
        time_last_optflow := 0
        fault_status := 0
        time_last_ext_vision := 0 })

/-- The drag down-sampling block of `setIMUData` (lines 117–147), factored as
a pure step on the accumulator triple `(count, down_sampled, dt_sum)`.  Emits
a `dragSample` (and resets) when the accumulated count reaches
`max(5, (uint8_t)ceil(imu_buffer_length / obs_buffer_length))`; the `uint8_t`
cast truncates the ratio modulo 256.  The accumulated `time_us` is `uint64`
arithmetic. -/
def dragAccumulate (imu_buffer_length obs_buffer_length : ℕ)
    (count : ℕ) (down : dragSample) (dt_sum : ℚ)
    (imu : imuSample) : (ℕ × dragSample × ℚ) × Option dragSample :=
  let count := count + 1
  let ax := down.accelXY.x + imu.delta_vel.x
  let ay := down.accelXY.y + imu.delta_vel.y
  let tu := (down.time_us + imu.time_us) % 2 ^ 64
  let dt_sum := dt_sum + imu.delta_vel_dt
  let min_sample_ratio :=
    max 5 (((imu_buffer_length + obs_buffer_length - 1) / obs_buffer_length) % 256)
  if count ≥ min_sample_ratio then
    ((0, ⟨0, V2.zero⟩, 0), some ⟨tu / count, ⟨ax / dt_sum, ay / dt_sum⟩⟩)
  else
    ((count, ⟨tu, ⟨ax, ay⟩⟩, dt_sum), none)

/-- The drag branch of `setIMUData` (lines 105–148), as a step on the
drag-related members `(_drag_buffer_fail, _drag_buffer, _drag_sample_count,
_drag_down_sampled, _drag_sample_time_dt)`.  Mirrors the source: skipped
entirely once `_drag_buffer_fail` is latched; the lazy allocation (outcome
`dragAllocOk`) latches the fail flag and aborts on failure; otherwise the
sample is accumulated via `dragAccumulate` and any emitted mean is pushed. -/
def dragStep (dragAllocOk : Bool) (imu_len obs_len : ℕ)
    (fail : Bool) (buf : RB dragSample) (count : ℕ) (down_acc : dragSample)
    (dt_sum : ℚ) (down : imuSample) :
    Bool × RB dragSample × ℕ × dragSample × ℚ :=
  if fail then (fail, buf, count, down_acc, dt_sum)
  else if buf.get_length < obs_len ∧ dragAllocOk = false then
    (true, buf, count, down_acc, dt_sum)
  else
    let buf := if buf.get_length < obs_len then RB.allocate dragSample obs_len else buf
    let r := dragAccumulate imu_len obs_len count down_acc dt_sum down
    match r.2 with
    | some ds => (false, buf.push ds, r.1.1, r.1.2.1, r.1.2.2)
    | none => (false, buf, r.1.1, r.1.2.1, r.1.2.2)

/-- `EstimatorInterface::setIMUData` (lines 49–154).

External collaborators are supplied as oracle arguments:
* `initAllocOk`: allocation outcome inside `init` when this is the first call
  (`init` is the derived-class hook; modelled from the spec as
  `initialise_interface`, after which `_initialised` is set true);
* `collect`: result of the external down-sampler `collect_imu`.  Modelled from
  the spec: `none` means "accumulating, no down-sampled sample ready yet";
  `some down` means ready, with `down` the down-sampled sample left in the
  by-reference argument (which is what gets pushed), and the member
  `_imu_sample_new` holds the newest raw sample;
* `dragAllocOk`: allocation outcome for the lazily allocated drag buffer.

The vibration-metric updates (lines 76–88) involve Euclidean norms and are
not referenced by any verified property; they are omitted (see module doc). -/
def setIMUData (p : Params) (initAllocOk : Bool) (collect : Option imuSample)
    (dragAllocOk : Bool) (st0 : EstimatorState)
    (time_usec delta_ang_dt delta_vel_dt : ℕ)
    (delta_ang delta_vel : V3) : EstimatorState :=
  let st :=
    if st0.initialised then st0
    else { (initialise_interface p initAllocOk st0 time_usec).2 with initialised := true }
  let dt : ℚ :=
    constrain ((u64sub time_usec st.time_last_imu : ℚ) / 1000000) (1 / 10000) (1 / 50)
  let st := { st with time_last_imu := time_usec }
  let st :=
    if st.time_last_imu > 0 then
      { st with dt_imu_avg := (8 / 10) * st.dt_imu_avg + (2 / 10) * dt }
    else st
  let raw : imuSample :=
    { time_us := time_usec, delta_ang := delta_ang, delta_vel := delta_vel,
      delta_ang_dt := (delta_ang_dt : ℚ) / 1000000,
      delta_vel_dt := (delta_vel_dt : ℚ) / 1000000 }
  let st := { st with imu_ticks := st.imu_ticks + 1, imu_sample_new := raw }
  match collect with
  | none => { st with imu_updated := false }
  | some down =>
    let st :=
      { st with imu_buffer := st.imu_buffer.push down, imu_ticks := 0, imu_updated := true }
    let delayed := st.imu_buffer.get_oldest
    let st := { st with imu_sample_delayed := delayed }
    let st :=
      { st with min_obs_interval_us :=
          u64sub st.imu_sample_new.time_us delayed.time_us / (st.obs_buffer_length - 1) }
    if p.fusion_mode &&& MASK_USE_DRAG ≠ 0 then
      let r := dragStep dragAllocOk st.imu_buffer_length st.obs_buffer_length
                 st.drag_buffer_fail st.drag_buffer st.drag_sample_count
                 st.drag_down_sampled st.drag_sample_time_dt down
      { st with drag_buffer_fail := r.1, drag_buffer := r.2.1,
                drag_sample_count := r.2.2.1, drag_down_sampled := r.2.2.2.1,
                drag_sample_time_dt := r.2.2.2.2 }
    else st

/-- `EstimatorInterface::setMagData` (lines 156–185).  `allocOk` is the
outcome of the lazy `allocate` call when one is attempted. -/
def setMagData (p : Params) (allocOk : Bool) (st : EstimatorState)
    (time_usec : ℕ) (data : V3) : EstimatorState :=
  if !st.initialised || st.mag_buffer_fail then st
  else if st.mag_buffer.get_length < st.obs_buffer_length ∧ allocOk = false then
    { st with mag_buffer_fail := true }
  else
    let st :=
      if st.mag_buffer.get_length < st.obs_buffer_length then
        { st with mag_buffer := RB.allocate magSample st.obs_buffer_length }
      else st
    if u64sub time_usec st.time_last_mag > st.min_obs_interval_us then
      let ts := u64sub (u64sub time_usec (p.mag_delay_ms * 1000))
                  (p.filter_update_period_ms * 1000 / 2)
      { st with time_last_mag := time_usec,
                mag_buffer := st.mag_buffer.push { time_us := ts, mag := data } }
    else st

/-- `EstimatorInterface::setGpsData` (lines 187–238).  `collect_gps` is the
external origin-management hook (true iff the WGS-84 origin is set);
`project` models `map_projection_project` against `_pos_ref`. -/
def setGpsData (p : Params) (allocOk : Bool) (collect_gps : Bool)
    (project : ℚ → ℚ → ℚ × ℚ) (st : EstimatorState)
    (time_usec : ℕ) (gps : gps_message) : EstimatorState :=
  if !st.initialised || st.gps_buffer_fail then st
  else if st.gps_buffer.get_length < st.obs_buffer_length ∧ allocOk = false then
    { st with gps_buffer_fail := true }
  else
    let st :=
      if st.gps_buffer.get_length < st.obs_buffer_length then
        { st with gps_buffer := RB.allocate gpsSample st.obs_buffer_length }
      else st
    let need_gps :=
      (p.fusion_mode &&& MASK_USE_GPS ≠ 0) ∨ p.vdist_sensor_type = VDIST_SENSOR_GPS
    if (u64sub time_usec st.time_last_gps > st.min_obs_interval_us) ∧ need_gps ∧
        gps.fix_type > 2 then
      let ts0 := u64sub (u64sub gps.time_usec (p.gps_delay_ms * 1000))
                   (p.filter_update_period_ms * 1000 / 2)
      let ts := max ts0 st.imu_sample_delayed.time_us
      let pos :=
        if collect_gps then
          project ((gps.lat : ℚ) / 10000000) ((gps.lon : ℚ) / 10000000)
        else (0, 0)
      { st with time_last_gps := time_usec,
                gps_speed_valid := gps.vel_ned_valid,
                gps_buffer := st.gps_buffer.push
                  { time_us := ts, pos := ⟨pos.1, pos.2⟩,
                    hgt := (gps.alt : ℚ) * (1 / 1000), vel := gps.vel_ned,
                    sacc := gps.sacc, hacc := gps.eph, vacc := gps.epv } }
    else st

/-- `EstimatorInterface::setBaroData` (lines 240–270). -/
def setBaroData (p : Params) (allocOk : Bool) (st : EstimatorState)
    (time_usec : ℕ) (data : ℚ) : EstimatorState :=
  if !st.initialised || st.baro_buffer_fail then st
  else if st.baro_buffer.get_length < st.obs_buffer_length ∧ allocOk = false then
    { st with baro_buffer_fail := true }
  else
    let st :=
      if st.baro_buffer.get_length < st.obs_buffer_length then
        { st with baro_buffer := RB.allocate baroSample st.obs_buffer_length }
      else st
    if u64sub time_usec st.time_last_baro > st.min_obs_interval_us then
      let ts0 := u64sub (u64sub time_usec (p.baro_delay_ms * 1000))
                   (p.filter_update_period_ms * 1000 / 2)
      let ts := max ts0 st.imu_sample_delayed.time_us
      { st with time_last_baro := time_usec,
                baro_buffer := st.baro_buffer.push { time_us := ts, hgt := data } }
    else st

/-- `EstimatorInterface::setAirspeedData` (lines 272–299). -/
def setAirspeedData (p : Params) (allocOk : Bool) (st : EstimatorState)
    (time_usec : ℕ) (true_airspeed eas2tas : ℚ) : EstimatorState :=
  if !st.initialised || st.airspeed_buffer_fail then st
  else if st.airspeed_buffer.get_length < st.obs_buffer_length ∧ allocOk = false then
    { st with airspeed_buffer_fail := true }
  else
    let st :=
      if st.airspeed_buffer.get_length < st.obs_buffer_length then
        { st with airspeed_buffer := RB.allocate airspeedSample st.obs_buffer_length }
      else st
    if u64sub time_usec st.time_last_airspeed > st.min_obs_interval_us then
      let ts := u64sub (u64sub time_usec (p.airspeed_delay_ms * 1000))
                  (p.filter_update_period_ms * 1000 / 2)
      { st with time_last_airspeed := time_usec,
                airspeed_buffer := st.airspeed_buffer.push
                  { time_us := ts, true_airspeed := true_airspeed, eas2tas := eas2tas } }
    else st

/-- `EstimatorInterface::setRangeData` (lines 301–326).  Note: back-dates by
`range_delay_ms` only — no half-filter-period term. -/
def setRangeData (p : Params) (allocOk : Bool) (st : EstimatorState)
    (time_usec : ℕ) (data : ℚ) : EstimatorState :=
  if !st.initialised || st.range_buffer_fail then st
  else if st.range_buffer.get_length < st.obs_buffer_length ∧ allocOk = false then
    { st with range_buffer_fail := true }
  else
    let st :=
      if st.range_buffer.get_length < st.obs_buffer_length then
        { st with range_buffer := RB.allocate rangeSample st.obs_buffer_length }
      else st
    if u64sub time_usec st.time_last_range > st.min_obs_interval_us then
      let ts := u64sub time_usec (p.range_delay_ms * 1000)
      { st with time_last_range := time_usec,
                range_buffer := st.range_buffer.push { time_us := ts, rng := data } }
    else st

/-- The gyro-source block of `setOpticalFlowData` (lines 383–396): decides the
`no_gyro` fallback and the value assigned to `gyroXYZ` there.  The fallback
fires when `!PX4_ISFINITE` holds of all three `gyrodata` components; it then
derives the rate from the nearest IMU sample at or before the flow mid-point
as `delta_ang / delta_ang_dt`; otherwise `gyroXYZ = -gyrodata`.  When the
buffer lookup fails the C++ local stays uninitialised; that case is modelled
by the `default` sample. -/
def flowGyroSource (st : EstimatorState) (mid_us : ℕ) (flow : flow_message) :
    Bool × V3 :=
  if flow.gyrodata_finite.1 = false ∧ flow.gyrodata_finite.2.1 = false ∧
      flow.gyrodata_finite.2.2 = false then
    let matching := (st.imu_buffer.read_first_older_than mid_us).getD default
    (true, matching.delta_ang.sdiv matching.delta_ang_dt)
  else
    (false, flow.gyrodata.neg)

/-- The clamped integration interval of `setOpticalFlowData` (lines 349–355):
`Δt = dt·1e-6`, raised to `delta_time_min = 0.5·_min_obs_interval_us·1e-6`
when below it. -/
def flowDeltaTime (st : EstimatorState) (flow : flow_message) : ℚ :=
  let delta_time0 : ℚ := (flow.dt : ℚ) / 1000000
  let delta_time_min : ℚ := (st.min_obs_interval_us : ℚ) / 2000000
  if delta_time0 ≥ delta_time_min then delta_time0 else delta_time_min

/-- The three validity checks of `setOpticalFlowData` (lines 347–368), in the
order `(delta_time_good, flow_magnitude_good, flow_quality_good)`.

The magnitude gate compares `‖flowdata‖ / Δt ≤ flow_rate_max`; to stay in
exact arithmetic it is embedded as the equivalent square comparison, valid
for `Δt > 0` (and false exactly as the float comparison is when `Δt = 0`,
where the quotient is NaN/Inf, or when `flow_rate_max < 0`).  It is only
evaluated when `delta_time_good` holds, staying `true` otherwise as the
source initialiser does. -/
def flowChecks (p : Params) (st : EstimatorState) (flow : flow_message) :
    Bool × Bool × Bool :=
  let delta_time0 : ℚ := (flow.dt : ℚ) / 1000000
  let delta_time_min : ℚ := (st.min_obs_interval_us : ℚ) / 2000000
  let delta_time_good : Bool := delta_time0 ≥ delta_time_min
  let flow_magnitude_good : Bool :=
    if delta_time_good then
      decide (0 < delta_time0 ∧ 0 ≤ p.flow_rate_max ∧
        flow.flowdata.x ^ 2 + flow.flowdata.y ^ 2 ≤ (p.flow_rate_max * delta_time0) ^ 2)
    else true
  let flow_quality_good : Bool := flow.quality ≥ p.flow_qual_min
  (delta_time_good, flow_magnitude_good, flow_quality_good)

/-- The flow sample built by the accepted branch of `setOpticalFlowData`
(lines 373–441). -/
def flowSampleOf (p : Params) (st : EstimatorState) (time_usec : ℕ)
    (flow : flow_message) : flowSample :=
  let delta_time := flowDeltaTime st flow
  let flow_quality_good := (flowChecks p st flow).2.2
  let mid := u64sub (u64sub time_usec (p.flow_delay_ms * 1000)) (flow.dt / 2)
  let g := flowGyroSource st mid flow
  let no_gyro := g.1
  let gyroXYZ := g.2
  let matching := (st.imu_buffer.read_first_older_than mid).getD default
  let flowRadXY : V2 :=
    if flow_quality_good then
      if no_gyro then flow.flowdata.sdiv delta_time else flow.flowdata.neg
    else
      if no_gyro then ⟨-gyroXYZ.x, -gyroXYZ.y⟩
      else ⟨-flow.gyrodata.x, -flow.gyrodata.y⟩
  let comp : V2 :=
    if no_gyro then
      ⟨(flowRadXY.x + gyroXYZ.x) * delta_time, (flowRadXY.y + gyroXYZ.y) * delta_time⟩
    else ⟨flowRadXY.x - gyroXYZ.x, flowRadXY.y - gyroXYZ.y⟩
  let gyroFinal : V3 :=
    if no_gyro then
      ⟨gyroXYZ.x * matching.delta_ang_dt, gyroXYZ.y * matching.delta_ang_dt, gyroXYZ.z⟩
    else gyroXYZ
  { time_us := mid, quality := flow.quality, flowRadXY := flowRadXY,
    gyroXYZ := gyroFinal, flowRadXYcomp := comp, dt := delta_time }

/-- `EstimatorInterface::setOpticalFlowData` (lines 329–447).  `in_air` is
`_control_status.flags.in_air` (status owned by the outer filter).  Accepts
when all three checks pass or the vehicle is on the ground. -/
def setOpticalFlowData (p : Params) (allocOk : Bool) (in_air : Bool)
    (st : EstimatorState) (time_usec : ℕ) (flow : flow_message) : EstimatorState :=
  if !st.initialised || st.flow_buffer_fail then st
  else if st.flow_buffer.get_length < st.obs_buffer_length ∧ allocOk = false then
    { st with flow_buffer_fail := true }
  else
    let st :=
      if st.flow_buffer.get_length < st.obs_buffer_length then
        { st with flow_buffer := RB.allocate flowSample st.obs_buffer_length }
      else st
    if u64sub time_usec st.time_last_optflow > st.min_obs_interval_us then
      let c := flowChecks p st flow
      if (c.1 && c.2.2 && c.2.1) || !in_air then
        { st with time_last_optflow := time_usec,
                  flow_buffer := st.flow_buffer.push (flowSampleOf p st time_usec flow) }
      else st
    else st

/-- `EstimatorInterface::setExtVisionData` (lines 450–484): back-dates by
`ev_delay_ms` only. -/
def setExtVisionData (p : Params) (allocOk : Bool) (st : EstimatorState)
    (time_usec : ℕ) (evdata : ext_vision_message) : EstimatorState :=
  if !st.initialised || st.ev_buffer_fail then st
  else if st.ext_vision_buffer.get_length < st.obs_buffer_length ∧ allocOk = false then
    { st with ev_buffer_fail := true }
  else
    let st :=
      if st.ext_vision_buffer.get_length < st.obs_buffer_length then
        { st with ext_vision_buffer := RB.allocate extVisionSample st.obs_buffer_length }
      else st
    if u64sub time_usec st.time_last_ext_vision > st.min_obs_interval_us then
      let ts := u64sub time_usec (p.ev_delay_ms * 1000)
      { st with time_last_ext_vision := time_usec,
                ext_vision_buffer := st.ext_vision_buffer.push
                  { time_us := ts, quat := evdata.quat, posNED := evdata.posNED,
                    angErr := evdata.angErr, posErr := evdata.posErr } }
    else st

/-- `EstimatorInterface::setAuxVelData` (lines 486–516).  Back-dates by
`auxvel_delay_ms` and half the filter period; note there is no clamp against
`_imu_sample_delayed.time_us`. -/
def setAuxVelData (p : Params) (allocOk : Bool) (st : EstimatorState)
    (time_usec : ℕ) (data variance : V2) : EstimatorState :=
  if !st.initialised || st.auxvel_buffer_fail then st
  else if st.auxvel_buffer.get_length < st.obs_buffer_length ∧ allocOk = false then
    { st with auxvel_buffer_fail := true }
  else
    let st :=
      if st.auxvel_buffer.get_length < st.obs_buffer_length then
        { st with auxvel_buffer := RB.allocate auxVelSample st.obs_buffer_length }
      else st
    if u64sub time_usec st.time_last_auxvel > st.min_obs_interval_us then
      let ts := u64sub (u64sub time_usec (p.auxvel_delay_ms * 1000))
                  (p.filter_update_period_ms * 1000 / 2)
      { st with time_last_auxvel := time_usec,
                auxvel_buffer := st.auxvel_buffer.push
                  { time_us := ts, velNE := data, velVarNE := variance } }
    else st

/-! ## Concrete fixtures used by counterexamples and witnesses -/

/-- A concrete parameter set (delays in ms; GPS fusion enabled, drag off). -/
def p0 : Params where
  mag_delay_ms := 0
  range_delay_ms := 0
  gps_delay_ms := 0
  flow_delay_ms := 0
  ev_delay_ms := 0
  auxvel_delay_ms := 100
  min_delay_ms := 0
  airspeed_delay_ms := 0
  baro_delay_ms := 0
  sensor_interval_min_ms := 20
  fusion_mode := 1
  vdist_sensor_type := 0
  flow_rate_max := 5
  flow_qual_min := 50
  filter_update_period_ms := 12

/-- The one down-sampled IMU sample held in the base fixture's IMU buffer:
1 rad about x over 1 s. -/
def imuB : imuSample where
  time_us := 900000
  delta_ang := ⟨1, 0, 0⟩
  delta_vel := V3.zero
  delta_ang_dt := 1
  delta_vel_dt := 1

/-- A concrete reachable-shaped state: initialised, observation buffers
allocated to `obs_buffer_length = 14`, one down-sampled IMU sample buffered,
fusion horizon at `t = 1000000 µs`, minimum observation interval 20 ms. -/
def baseState : EstimatorState where
  initialised := true
  dt_imu_avg := 0
  imu_ticks := 0
  imu_updated := false
  imu_sample_delayed :=
    { time_us := 1000000, delta_ang := V3.zero, delta_vel := V3.zero,
      delta_ang_dt := 0, delta_vel_dt := 0 }
  imu_sample_new := default
  min_obs_interval_us := 20000
  imu_buffer_length := 15
  obs_buffer_length := 14
  time_last_imu := 1000000
  time_last_gps := 0
  time_last_mag := 0
  time_last_baro := 0
  time_last_range := 0
  time_last_airspeed := 0
  time_last_optflow := 0
  time_last_ext_vision := 0
  time_last_auxvel := 0
  fault_status := 0
  gps_speed_valid := false
  imu_buffer := ⟨15, [imuB]⟩
  mag_buffer := ⟨14, []⟩
  gps_buffer := ⟨14, []⟩
  baro_buffer := ⟨14, []⟩
  range_buffer := ⟨14, []⟩
  airspeed_buffer := ⟨14, []⟩
  flow_buffer := ⟨14, []⟩
  ext_vision_buffer := ⟨14, []⟩
  auxvel_buffer := ⟨14, []⟩
  drag_buffer := ⟨14, []⟩
  mag_buffer_fail := false
  gps_buffer_fail := false
  baro_buffer_fail := false
  range_buffer_fail := false
  airspeed_buffer_fail := false
  flow_buffer_fail := false
  ev_buffer_fail := false
  auxvel_buffer_fail := false
  drag_buffer_fail := false
  drag_sample_count := 0
  drag_down_sampled := ⟨0, V2.zero⟩
  drag_sample_time_dt := 0

/-! ## Ring-buffer helper lemmas -/

theorem RB.cap_push {α} (b : RB α) (s : α) : (b.push s).cap = b.cap := by
  unfold RB.push
  split <;> rfl

theorem RB.get_length_push {α} (b : RB α) (s : α) :
    (b.push s).get_length = b.get_length := by
  unfold RB.get_length
  exact RB.cap_push b s

theorem RB.getLast?_push {α} (b : RB α) (s : α) :
    (b.push s).data.getLast? = some s := by
  unfold RB.push
  split <;> simp

/-! ## Acceptance/rejection characterisations of the intake routines

Shared lemmas describing each intake on an initialised state whose buffer is
already allocated (`¬ length < obs_buffer_length`), in the accepted and the
rate-limited case. -/

theorem setMagData_accept (p : Params) (allocOk : Bool) (st : EstimatorState)
    (t : ℕ) (d : V3)
    (hi : st.initialised = true) (hf : st.mag_buffer_fail = false)
    (hc : ¬st.mag_buffer.get_length < st.obs_buffer_length)
    (hr : u64sub t st.time_last_mag > st.min_obs_interval_us) :
    setMagData p allocOk st t d =
      { st with time_last_mag := t,
                mag_buffer := st.mag_buffer.push
                  { time_us := u64sub (u64sub t (p.mag_delay_ms * 1000))
                      (p.filter_update_period_ms * 1000 / 2), mag := d } } := by
  unfold setMagData
  rw [hi, hf]
  simp only [Bool.not_true, Bool.or_false, Bool.false_eq_true, if_false]
  rw [if_neg (fun h => hc h.1), if_neg hc, if_pos hr, hi, hf]

theorem setMagData_reject (p : Params) (allocOk : Bool) (st : EstimatorState)
    (t : ℕ) (d : V3)
    (hi : st.initialised = true) (hf : st.mag_buffer_fail = false)
    (hc : ¬st.mag_buffer.get_length < st.obs_buffer_length)
    (hr : ¬u64sub t st.time_last_mag > st.min_obs_interval_us) :
    setMagData p allocOk st t d = st := by
  unfold setMagData
  rw [hi, hf]
  simp only [Bool.not_true, Bool.or_false, Bool.false_eq_true, if_false]
  rw [if_neg (fun h => hc h.1), if_neg hc, if_neg hr]

theorem setRangeData_accept (p : Params) (allocOk : Bool) (st : EstimatorState)
    (t : ℕ) (d : ℚ)
    (hi : st.initialised = true) (hf : st.range_buffer_fail = false)
    (hc : ¬st.range_buffer.get_length < st.obs_buffer_length)
    (hr : u64sub t st.time_last_range > st.min_obs_interval_us) :
    setRangeData p allocOk st t d =
      { st with time_last_range := t,
                range_buffer := st.range_buffer.push
                  { time_us := u64sub t (p.range_delay_ms * 1000), rng := d } } := by
  unfold setRangeData
  rw [hi, hf]
  simp only [Bool.not_true, Bool.or_false, Bool.false_eq_true, if_false]
  rw [if_neg (fun h => hc h.1), if_neg hc, if_pos hr, hi, hf]

theorem setRangeData_reject (p : Params) (allocOk : Bool) (st : EstimatorState)
    (t : ℕ) (d : ℚ)
    (hi : st.initialised = true) (hf : st.range_buffer_fail = false)
    (hc : ¬st.range_buffer.get_length < st.obs_buffer_length)
    (hr : ¬u64sub t st.time_last_range > st.min_obs_interval_us) :
    setRangeData p allocOk st t d = st := by
  unfold setRangeData
  rw [hi, hf]
  simp only [Bool.not_true, Bool.or_false, Bool.false_eq_true, if_false]
  rw [if_neg (fun h => hc h.1), if_neg hc, if_neg hr]

theorem setBaroData_accept (p : Params) (allocOk : Bool) (st : EstimatorState)
    (t : ℕ) (d : ℚ)
    (hi : st.initialised = true) (hf : st.baro_buffer_fail = false)
    (hc : ¬st.baro_buffer.get_length < st.obs_buffer_length)
    (hr : u64sub t st.time_last_baro > st.min_obs_interval_us) :
    setBaroData p allocOk st t d =
      { st with time_last_baro := t,
                baro_buffer := st.baro_buffer.push
                  { time_us := max (u64sub (u64sub t (p.baro_delay_ms * 1000))
                      (p.filter_update_period_ms * 1000 / 2))
                      st.imu_sample_delayed.time_us, hgt := d } } := by
  unfold setBaroData
  rw [hi, hf]
  simp only [Bool.not_true, Bool.or_false, Bool.false_eq_true, if_false]
  rw [if_neg (fun h => hc h.1), if_neg hc, if_pos hr, hi, hf]

theorem setAuxVelData_accept (p : Params) (allocOk : Bool) (st : EstimatorState)
    (t : ℕ) (d v : V2)
    (hi : st.initialised = true) (hf : st.auxvel_buffer_fail = false)
    (hc : ¬st.auxvel_buffer.get_length < st.obs_buffer_length)
    (hr : u64sub t st.time_last_auxvel > st.min_obs_interval_us) :
    setAuxVelData p allocOk st t d v =
      { st with time_last_auxvel := t,
                auxvel_buffer := st.auxvel_buffer.push
                  { time_us := u64sub (u64sub t (p.auxvel_delay_ms * 1000))
                      (p.filter_update_period_ms * 1000 / 2),
                    velNE := d, velVarNE := v } } := by
  unfold setAuxVelData
  rw [hi, hf]
  simp only [Bool.not_true, Bool.or_false, Bool.false_eq_true, if_false]
  rw [if_neg (fun h => hc h.1), if_neg hc, if_pos hr, hi, hf]

theorem setAirspeedData_accept (p : Params) (allocOk : Bool) (st : EstimatorState)
    (t : ℕ) (tas e2t : ℚ)
    (hi : st.initialised = true) (hf : st.airspeed_buffer_fail = false)
    (hc : ¬st.airspeed_buffer.get_length < st.obs_buffer_length)
    (hr : u64sub t st.time_last_airspeed > st.min_obs_interval_us) :
    setAirspeedData p allocOk st t tas e2t =
      { st with time_last_airspeed := t,
                airspeed_buffer := st.airspeed_buffer.push
                  { time_us := u64sub (u64sub t (p.airspeed_delay_ms * 1000))
                      (p.filter_update_period_ms * 1000 / 2),
                    true_airspeed := tas, eas2tas := e2t } } := by
  unfold setAirspeedData
  rw [hi, hf]
  simp only [Bool.not_true, Bool.or_false, Bool.false_eq_true, if_false]
  rw [if_neg (fun h => hc h.1), if_neg hc, if_pos hr, hi, hf]

theorem setExtVisionData_accept (p : Params) (allocOk : Bool) (st : EstimatorState)
    (t : ℕ) (ev : ext_vision_message)
    (hi : st.initialised = true) (hf : st.ev_buffer_fail = false)
    (hc : ¬st.ext_vision_buffer.get_length < st.obs_buffer_length)
    (hr : u64sub t st.time_last_ext_vision > st.min_obs_interval_us) :
    setExtVisionData p allocOk st t ev =
      { st with time_last_ext_vision := t,
                ext_vision_buffer := st.ext_vision_buffer.push
                  { time_us := u64sub t (p.ev_delay_ms * 1000), quat := ev.quat,
                    posNED := ev.posNED, angErr := ev.angErr, posErr := ev.posErr } } := by
  unfold setExtVisionData
  rw [hi, hf]
  simp only [Bool.not_true, Bool.or_false, Bool.false_eq_true, if_false]
  rw [if_neg (fun h => hc h.1), if_neg hc, if_pos hr, hi, hf]

theorem setGpsData_accept (p : Params) (allocOk : Bool) (cg : Bool)
    (proj : ℚ → ℚ → ℚ × ℚ) (st : EstimatorState) (t : ℕ) (g : gps_message)
    (hi : st.initialised = true) (hf : st.gps_buffer_fail = false)
    (hc : ¬st.gps_buffer.get_length < st.obs_buffer_length)
    (hr : u64sub t st.time_last_gps > st.min_obs_interval_us)
    (hn : (p.fusion_mode &&& MASK_USE_GPS ≠ 0) ∨ p.vdist_sensor_type = VDIST_SENSOR_GPS)
    (hfix : g.fix_type > 2) :
    setGpsData p allocOk cg proj st t g =
      { st with time_last_gps := t,
                gps_speed_valid := g.vel_ned_valid,
                gps_buffer := st.gps_buffer.push
                  { time_us := max (u64sub (u64sub g.time_usec (p.gps_delay_ms * 1000))
                        (p.filter_update_period_ms * 1000 / 2))
                        st.imu_sample_delayed.time_us,
                    pos := ⟨(if cg then proj ((g.lat : ℚ) / 10000000) ((g.lon : ℚ) / 10000000)
                             else (0, 0)).1,
                            (if cg then proj ((g.lat : ℚ) / 10000000) ((g.lon : ℚ) / 10000000)
                             else (0, 0)).2⟩,
                    hgt := (g.alt : ℚ) * (1 / 1000), vel := g.vel_ned,
                    sacc := g.sacc, hacc := g.eph, vacc := g.epv } } := by
  unfold setGpsData
  rw [hi, hf]
  simp only [Bool.not_true, Bool.or_false, Bool.false_eq_true, if_false]
  rw [if_neg (fun h => hc h.1), if_neg hc, if_pos ⟨hr, hn, hfix⟩, hi, hf]

theorem setGpsData_reject (p : Params) (allocOk : Bool) (cg : Bool)
    (proj : ℚ → ℚ → ℚ × ℚ) (st : EstimatorState) (t : ℕ) (g : gps_message)
    (hi : st.initialised = true) (hf : st.gps_buffer_fail = false)
    (hc : ¬st.gps_buffer.get_length < st.obs_buffer_length)
    (hrej : ¬((u64sub t st.time_last_gps > st.min_obs_interval_us) ∧
      ((p.fusion_mode &&& MASK_USE_GPS ≠ 0) ∨ p.vdist_sensor_type = VDIST_SENSOR_GPS) ∧
      g.fix_type > 2)) :
    setGpsData p allocOk cg proj st t g = st := by
  unfold setGpsData
  rw [hi, hf]
  simp only [Bool.not_true, Bool.or_false, Bool.false_eq_true, if_false]
  rw [if_neg (fun h => hc h.1), if_neg hc, if_neg hrej]

theorem setOpticalFlowData_accept (p : Params) (allocOk in_air : Bool)
    (st : EstimatorState) (t : ℕ) (flow : flow_message)
    (hi : st.initialised = true) (hf : st.flow_buffer_fail = false)
    (hc : ¬st.flow_buffer.get_length < st.obs_buffer_length)
    (hr : u64sub t st.time_last_optflow > st.min_obs_interval_us)
    (hg : (((flowChecks p st flow).1 && (flowChecks p st flow).2.2 &&
           (flowChecks p st flow).2.1) || !in_air) = true) :
    setOpticalFlowData p allocOk in_air st t flow =
      { st with time_last_optflow := t,
                flow_buffer := st.flow_buffer.push (flowSampleOf p st t flow) } := by
  unfold setOpticalFlowData
  rw [hi, hf]
  simp only [Bool.not_true, Bool.or_false, Bool.false_eq_true, if_false]
  rw [if_neg (fun h => hc h.1), if_neg hc, if_pos hr, if_pos hg, hi, hf]

/-! ## Specification-side buffer-sizing formulas (for the refinement claim C5)

These four definitions follow the wording of the specification (§4.5), to be
compared against what `initialise_interface` computes. -/

/-- Spec wording: `max_delay_ms` is the maximum of the nine configured delay
parameters. -/
def spec_max_delay_ms (p : Params) : ℕ :=
  max p.mag_delay_ms (max p.range_delay_ms (max p.gps_delay_ms
    (max p.flow_delay_ms (max p.ev_delay_ms (max p.auxvel_delay_ms
      (max p.min_delay_ms (max p.airspeed_delay_ms p.baro_delay_ms)))))))

/-- Spec wording: `imu_buffer_length = ⌊max_delay_ms / FILTER_UPDATE_PERIOD_MS⌋ + 1`. -/
def spec_imu_buffer_length (p : Params) : ℕ :=
  spec_max_delay_ms p / p.filter_update_period_ms + 1

/-- Spec wording: `ekf_delay_ms = max_delay_ms + ⌈max_delay_ms · 0.5⌉`
(`⌈x/2⌉ = (x+1)/2` on naturals). -/
def spec_ekf_delay_ms (p : Params) : ℕ :=
  spec_max_delay_ms p + (spec_max_delay_ms p + 1) / 2

/-- Spec wording:
`obs_buffer_length = min(imu_buffer_length, ⌊ekf_delay_ms / sensor_interval_min_ms⌋ + 1)`. -/
def spec_obs_buffer_length (p : Params) : ℕ :=
  min (spec_imu_buffer_length p) (spec_ekf_delay_ms p / p.sensor_interval_min_ms + 1)

/-- Concrete delay set whose maximum is 175 ms, with
`sensor_interval_min_ms = 20` and `FILTER_UPDATE_PERIOD_MS = 12` (the S1
scenario of the specification). -/
def p175 : Params where
  mag_delay_ms := 20
  range_delay_ms := 30
  gps_delay_ms := 110
  flow_delay_ms := 175
  ev_delay_ms := 160
  auxvel_delay_ms := 50
  min_delay_ms := 0
  airspeed_delay_ms := 100
  baro_delay_ms := 40
  sensor_interval_min_ms := 20
  fusion_mode := 1
  vdist_sensor_type := 0
  flow_rate_max := 5
  flow_qual_min := 50
  filter_update_period_ms := 12

/-! ## Claims -/

/-- C5: `initialise_interface` computes
`imu_buffer_length = ⌊max_delay_ms / FILTER_UPDATE_PERIOD_MS⌋ + 1`,
`ekf_delay_ms = max_delay_ms + ⌈max_delay_ms · 0.5⌉` and
`obs_buffer_length = min(imu_buffer_length, ⌊ekf_delay_ms / interval⌋ + 1)`
with `max_delay_ms` the maximum of the nine configured delays; with
`max_delay_ms = 175`, period 12 and interval 20 this gives buffer lengths
15, an EKF delay of 263 ms, and 14. -/
theorem C5_theorem :
    (∀ (p : Params) (allocOk : Bool) (st : EstimatorState) (ts : ℕ),
      (initialise_interface p allocOk st ts).2.imu_buffer_length = spec_imu_buffer_length p ∧
      (initialise_interface p allocOk st ts).2.obs_buffer_length = spec_obs_buffer_length p) ∧
    spec_max_delay_ms p175 = 175 ∧ spec_imu_buffer_length p175 = 15 ∧
    spec_ekf_delay_ms p175 = 263 ∧ spec_obs_buffer_length p175 = 14 ∧
    (initialise_interface p175 true baseState 0).2.imu_buffer_length = 15 ∧
    (initialise_interface p175 true baseState 0).2.obs_buffer_length = 14 := by
  refine ⟨fun p allocOk st ts => ?_, by decide, by decide, by decide, by decide,
    by decide, by decide⟩
  unfold initialise_interface spec_obs_buffer_length spec_imu_buffer_length
    spec_ekf_delay_ms spec_max_delay_ms
  cases allocOk <;> simp [unallocate_buffers, Nat.min_comm]

/-- C3 counterexample: a mag sample arriving exactly `_min_obs_interval_us`
(20000 µs) after the previously accepted time is NOT accepted — the state is
unchanged — although `time_us - _time_last_mag < _min_obs_interval_us` does
not hold, so the claim's rejection condition does not cover it. -/
theorem C3_counterexample :
    setMagData p0 true baseState 20000 ⟨1, 2, 3⟩ = baseState ∧
    ¬u64sub 20000 baseState.time_last_mag < baseState.min_obs_interval_us := by
  constructor
  · decide
  · decide

/-- C3 (amended): the rate limit accepts an arriving sample exactly when
`time_us - _time_last_<sensor> > _min_obs_interval_us` (strict), i.e. it
rejects exactly when the difference is `≤ _min_obs_interval_us`; in
particular a sample arriving exactly `_min_obs_interval_us` after the
previously accepted one is rejected.  Shown for the mag and range intakes on
an initialised state with an allocated buffer. -/
theorem C3_theorem (p : Params) (allocOk : Bool) (st : EstimatorState)
    (t : ℕ) (d3 : V3) (dr : ℚ)
    (hi : st.initialised = true)
    (hfm : st.mag_buffer_fail = false)
    (hcm : ¬st.mag_buffer.get_length < st.obs_buffer_length)
    (hfr : st.range_buffer_fail = false)
    (hcr : ¬st.range_buffer.get_length < st.obs_buffer_length) :
    (u64sub t st.time_last_mag ≤ st.min_obs_interval_us →
      setMagData p allocOk st t d3 = st) ∧
    (u64sub t st.time_last_mag > st.min_obs_interval_us →
      (setMagData p allocOk st t d3).mag_buffer.data.getLast? =
        some { time_us := u64sub (u64sub t (p.mag_delay_ms * 1000))
                 (p.filter_update_period_ms * 1000 / 2), mag := d3 }) ∧
    (u64sub t st.time_last_range ≤ st.min_obs_interval_us →
      setRangeData p allocOk st t dr = st) ∧
    (u64sub t st.time_last_range > st.min_obs_interval_us →
      (setRangeData p allocOk st t dr).range_buffer.data.getLast? =
        some { time_us := u64sub t (p.range_delay_ms * 1000), rng := dr }) := by
  refine ⟨fun h => ?_, fun h => ?_, fun h => ?_, fun h => ?_⟩
  · exact setMagData_reject p allocOk st t d3 hi hfm hcm (Nat.not_lt.mpr h)
  · rw [setMagData_accept p allocOk st t d3 hi hfm hcm h]
    exact RB.getLast?_push _ _
  · exact setRangeData_reject p allocOk st t dr hi hfr hcr (Nat.not_lt.mpr h)
  · rw [setRangeData_accept p allocOk st t dr hi hfr hcr h]
    exact RB.getLast?_push _ _

/-- C3 witness: on the concrete base state, a mag sample 30000 µs after the
last accepted time (interval 20000 µs) is accepted and stored back-dated by
6000 µs. -/
theorem C3_witness :
    u64sub 30000 baseState.time_last_mag > baseState.min_obs_interval_us ∧
    (setMagData p0 true baseState 30000 ⟨1, 2, 3⟩).mag_buffer.data.getLast? =
      some { time_us := u64sub (u64sub 30000 (p0.mag_delay_ms * 1000))
               (p0.filter_update_period_ms * 1000 / 2), mag := ⟨1, 2, 3⟩ } :=
  ⟨by decide,
   (C3_theorem p0 true baseState 30000 ⟨1, 2, 3⟩ 0 (by decide) (by decide)
     (by decide) (by decide) (by decide)).2.1 (by decide)⟩

/-- C1 counterexample: with `auxvel_delay_ms = 100` an accepted aux-velocity
sample presented at `t = 1000000 µs` is stored back-dated to `894000 µs`,
strictly below `_imu_sample_delayed.time_us = 1000000 µs` — `setAuxVelData`
applies no clamp. -/
theorem C1_counterexample :
    (setAuxVelData p0 true baseState 1000000 V2.zero V2.zero).auxvel_buffer.data.getLast? =
      some { time_us := 894000, velNE := V2.zero, velVarNE := V2.zero } ∧
    894000 < baseState.imu_sample_delayed.time_us := by
  constructor
  · rw [setAuxVelData_accept p0 true baseState 1000000 V2.zero V2.zero
      (by decide) (by decide) (by decide) (by decide)]
    simp only [RB.getLast?_push]
    decide
  · decide

/-- C1 (amended): for every accepted sample, GPS and Baro clamp the stored
`time_us` to be `≥ _imu_sample_delayed.time_us` before pushing, but
Aux-Velocity does not: `setAuxVelData` stores the plain back-dated timestamp
`time_us - auxvel_delay_ms·1000 - FILTER_UPDATE_PERIOD_MS·1000/2` with no
clamp. -/
theorem C1_theorem (p : Params) (allocOk cg : Bool) (proj : ℚ → ℚ → ℚ × ℚ)
    (st : EstimatorState) (tg tb ta : ℕ) (g : gps_message) (db : ℚ) (d v : V2)
    (hi : st.initialised = true)
    (hfg : st.gps_buffer_fail = false)
    (hcg : ¬st.gps_buffer.get_length < st.obs_buffer_length)
    (hrg : u64sub tg st.time_last_gps > st.min_obs_interval_us)
    (hn : (p.fusion_mode &&& MASK_USE_GPS ≠ 0) ∨ p.vdist_sensor_type = VDIST_SENSOR_GPS)
    (hfix : g.fix_type > 2)
    (hfb : st.baro_buffer_fail = false)
    (hcb : ¬st.baro_buffer.get_length < st.obs_buffer_length)
    (hrb : u64sub tb st.time_last_baro > st.min_obs_interval_us)
    (hfa : st.auxvel_buffer_fail = false)
    (hca : ¬st.auxvel_buffer.get_length < st.obs_buffer_length)
    (hra : u64sub ta st.time_last_auxvel > st.min_obs_interval_us) :
    (∃ s, (setGpsData p allocOk cg proj st tg g).gps_buffer.data.getLast? = some s ∧
      st.imu_sample_delayed.time_us ≤ s.time_us) ∧
    (∃ s, (setBaroData p allocOk st tb db).baro_buffer.data.getLast? = some s ∧
      st.imu_sample_delayed.time_us ≤ s.time_us) ∧
    (∃ s, (setAuxVelData p allocOk st ta d v).auxvel_buffer.data.getLast? = some s ∧
      s.time_us = u64sub (u64sub ta (p.auxvel_delay_ms * 1000))
        (p.filter_update_period_ms * 1000 / 2)) := by
  refine ⟨?_, ?_, ?_⟩
  · rw [setGpsData_accept p allocOk cg proj st tg g hi hfg hcg hrg hn hfix]
    exact ⟨_, RB.getLast?_push _ _, Nat.le_max_right _ _⟩
  · rw [setBaroData_accept p allocOk st tb db hi hfb hcb hrb]
    exact ⟨_, RB.getLast?_push _ _, Nat.le_max_right _ _⟩
  · rw [setAuxVelData_accept p allocOk st ta d v hi hfa hca hra]
    exact ⟨_, RB.getLast?_push _ _, rfl⟩

/-- C1 witness: concrete instantiation on the base state; the GPS sample is
clamped up to the fusion-horizon timestamp, the aux-velocity sample keeps its
back-dated time. -/
theorem C1_witness :
    ((∃ s, (setGpsData p0 true false (fun x _ => (x, x)) baseState 30000
        { time_usec := 30000, fix_type := 3, vel_ned := V3.zero,
          vel_ned_valid := true, sacc := 0, eph := 0, epv := 0,
          alt := 0, lat := 0, lon := 0 }).gps_buffer.data.getLast? = some s ∧
      baseState.imu_sample_delayed.time_us ≤ s.time_us) ∧
    (∃ s, (setBaroData p0 true baseState 30000 7).baro_buffer.data.getLast? = some s ∧
      baseState.imu_sample_delayed.time_us ≤ s.time_us) ∧
    (∃ s, (setAuxVelData p0 true baseState 30000 V2.zero V2.zero).auxvel_buffer.data.getLast? =
        some s ∧
      s.time_us = u64sub (u64sub 30000 (p0.auxvel_delay_ms * 1000))
        (p0.filter_update_period_ms * 1000 / 2))) :=
  C1_theorem p0 true false (fun x _ => (x, x)) baseState 30000 30000 30000
    { time_usec := 30000, fix_type := 3, vel_ned := V3.zero, vel_ned_valid := true,
      sacc := 0, eph := 0, epv := 0, alt := 0, lat := 0, lon := 0 } 7 V2.zero V2.zero
    (by decide) (by decide) (by decide) (by decide) (by decide) (by decide)
    (by decide) (by decide) (by decide) (by decide) (by decide) (by decide)

/-- The base state with a non-zero aux-velocity arrival time, exercising the
reset behaviour of `initialise_interface`. -/
def stAux : EstimatorState := { baseState with time_last_auxvel := 5 }

/-- An uninitialised state (as left behind by `initialise_interface`). -/
def uninitState : EstimatorState := { baseState with initialised := false }

/-- C9 counterexample: a successful `initialise_interface` does NOT reset
`_time_last_auxvel` — it is absent from the reset list (lines 563–571), so a
prior value of 5 survives, contradicting "resets every per-sensor
`_time_last_*` field (including aux-velocity)". -/
theorem C9_counterexample :
    (initialise_interface p0 true stAux 777).2.time_last_auxvel = 5 ∧ (5 : ℕ) ≠ 0 := by
  constructor
  · decide
  · decide

/-- C9 (amended): when `initialise_interface` succeeds it resets
`_dt_imu_avg`, the per-sensor `_time_last_*` fields for IMU, GPS, mag, baro,
range, airspeed, optical flow and external vision — but NOT
`_time_last_auxvel`, which keeps its previous value — clears the fault
status, sets the delayed IMU sample to zero increments at the given
timestamp, and leaves `_initialised` false; `_initialised` becomes true on
the next `setIMUData` call, while every other intake returns without effect
on a non-initialised state. -/
theorem C9_theorem (p : Params) (st st' : EstimatorState) (ts tm : ℕ)
    (d3 : V3) (dq : ℚ) (d2 v2 : V2) (g : gps_message) (ev : ext_vision_message)
    (fm : flow_message) (aok cg in_air : Bool) (proj : ℚ → ℚ → ℚ × ℚ)
    (hinit : st'.initialised = false) :
    (initialise_interface p true st ts).1 = true ∧
    (initialise_interface p true st ts).2.dt_imu_avg = 0 ∧
    (initialise_interface p true st ts).2.time_last_imu = 0 ∧
    (initialise_interface p true st ts).2.time_last_gps = 0 ∧
    (initialise_interface p true st ts).2.time_last_mag = 0 ∧
    (initialise_interface p true st ts).2.time_last_baro = 0 ∧
    (initialise_interface p true st ts).2.time_last_range = 0 ∧
    (initialise_interface p true st ts).2.time_last_airspeed = 0 ∧
    (initialise_interface p true st ts).2.time_last_optflow = 0 ∧
    (initialise_interface p true st ts).2.time_last_ext_vision = 0 ∧
    (initialise_interface p true st ts).2.fault_status = 0 ∧
    (initialise_interface p true st ts).2.imu_sample_delayed =
      { time_us := ts, delta_ang := V3.zero, delta_vel := V3.zero,
        delta_ang_dt := 0, delta_vel_dt := 0 } ∧
    (initialise_interface p true st ts).2.initialised = false ∧
    (initialise_interface p true st ts).2.time_last_auxvel = st.time_last_auxvel ∧
    (∀ iok col dok t adt vdt da dv,
      (setIMUData p iok col dok st' t adt vdt da dv).initialised = true) ∧
    setMagData p aok st' tm d3 = st' ∧
    setGpsData p aok cg proj st' tm g = st' ∧
    setBaroData p aok st' tm dq = st' ∧
    setAirspeedData p aok st' tm dq dq = st' ∧
    setRangeData p aok st' tm dq = st' ∧
    setOpticalFlowData p aok in_air st' tm fm = st' ∧
    setExtVisionData p aok st' tm ev = st' ∧
    setAuxVelData p aok st' tm d2 v2 = st' := by
  refine ⟨rfl, rfl, rfl, rfl, rfl, rfl, rfl, rfl, rfl, rfl, rfl, rfl, rfl, rfl,
    ?_, ?_, ?_, ?_, ?_, ?_, ?_, ?_, ?_⟩
  · intro iok col dok t adt vdt da dv
    unfold setIMUData
    rw [hinit]
    cases col <;> simp [apply_ite EstimatorState.initialised]
  · simp [setMagData, hinit]
  · simp [setGpsData, hinit]
  · simp [setBaroData, hinit]
  · simp [setAirspeedData, hinit]
  · simp [setRangeData, hinit]
  · simp [setOpticalFlowData, hinit]
  · simp [setExtVisionData, hinit]
  · simp [setAuxVelData, hinit]

/-- C9 witness: the amended claim instantiated on the concrete states. -/
theorem C9_witness :
    (initialise_interface p0 true stAux 777).1 = true ∧
    (initialise_interface p0 true stAux 777).2.dt_imu_avg = 0 :=
  have h := C9_theorem p0 stAux uninitState 777 5 ⟨0, 0, 0⟩ 0 V2.zero V2.zero
    { time_usec := 0, fix_type := 3, vel_ned := V3.zero, vel_ned_valid := true,
      sacc := 0, eph := 0, epv := 0, alt := 0, lat := 0, lon := 0 }
    { quat := (1, 0, 0, 0), posNED := V3.zero, angErr := 0, posErr := 0 }
    { flowdata := V2.zero, gyrodata := V3.zero, gyrodata_finite := (true, true, true),
      dt := 0, quality := 0 }
    true true true (fun x _ => (x, x)) (by decide)
  ⟨h.1, h.2.1⟩

/-- The value `setIMUData` leaves in `_dt_imu_avg` on an initialised state:
the EMA with the clamped `dt` is applied whenever `time_usec > 0` — the
source assigns `_time_last_imu = time_usec` *before* testing
`_time_last_imu > 0`, so the test sees the new value. -/
theorem setIMUData_dt_avg (p : Params) (iok : Bool) (col : Option imuSample)
    (dok : Bool) (st : EstimatorState) (t adt vdt : ℕ) (da dv : V3)
    (hi : st.initialised = true) :
    (setIMUData p iok col dok st t adt vdt da dv).dt_imu_avg =
      if 0 < t then
        (8 / 10) * st.dt_imu_avg +
          (2 / 10) * constrain ((u64sub t st.time_last_imu : ℚ) / 1000000)
            (1 / 10000) (1 / 50)
      else st.dt_imu_avg := by
  unfold setIMUData
  rw [hi]
  cases col <;> simp [apply_ite EstimatorState.dt_imu_avg]

/-- A freshly initialised state: `_time_last_imu = 0`, `_dt_imu_avg = 0`. -/
def stFresh : EstimatorState := { baseState with time_last_imu := 0, dt_imu_avg := 0 }

/-- C4 counterexample: on the first IMU call after initialisation
(`_time_last_imu = 0` at entry) with `time_usec = 1000`, the EMA update IS
applied: `_dt_imu_avg` becomes `0.2 · clamp(1000/1e6, 1e-4, 0.02) = 1/5000`,
not the unchanged `0` the claim requires.  The skip-guard reads
`_time_last_imu` only after it has been overwritten with `time_usec`. -/
theorem C4_counterexample :
    stFresh.time_last_imu = 0 ∧
    (setIMUData p0 true none true stFresh 1000 10000 10000 V3.zero V3.zero).dt_imu_avg =
      1 / 5000 ∧
    (1 / 5000 : ℚ) ≠ 0 := by
  refine ⟨rfl, ?_, by norm_num⟩
  rw [setIMUData_dt_avg p0 true none true stFresh 1000 10000 10000 V3.zero V3.zero rfl,
    if_pos (by decide : (0 : ℕ) < 1000),
    show stFresh.time_last_imu = 0 from rfl,
    show stFresh.dt_imu_avg = 0 from rfl,
    show u64sub 1000 0 = 1000 from by decide]
  norm_num [constrain]

/-- C4 (amended): on every `setIMUData` call on an initialised state,
`dt = clamp((time_usec - _time_last_imu)/1e6, 1e-4, 0.02)` and the EMA
`_dt_imu_avg ← 0.8·_dt_imu_avg + 0.2·dt` is applied, except that it is
skipped exactly when `time_usec = 0` (the guard `_time_last_imu > 0` is
evaluated after `_time_last_imu` has been assigned `time_usec`, so the first
call after initialisation does update the average whenever its timestamp is
positive). -/
theorem C4_theorem (p : Params) (iok : Bool) (col : Option imuSample)
    (dok : Bool) (st : EstimatorState) (t adt vdt : ℕ) (da dv : V3)
    (hi : st.initialised = true) :
    (setIMUData p iok col dok st t adt vdt da dv).dt_imu_avg =
      if 0 < t then
        (8 / 10) * st.dt_imu_avg +
          (2 / 10) * constrain ((u64sub t st.time_last_imu : ℚ) / 1000000)
            (1 / 10000) (1 / 50)
      else st.dt_imu_avg :=
  setIMUData_dt_avg p iok col dok st t adt vdt da dv hi

/-- C4 witness: the amended claim at a concrete input. -/
theorem C4_witness :
    (setIMUData p0 true none true stFresh 1000 10000 10000 V3.zero V3.zero).dt_imu_avg =
      if 0 < (1000 : ℕ) then
        (8 / 10) * stFresh.dt_imu_avg +
          (2 / 10) * constrain ((u64sub 1000 stFresh.time_last_imu : ℚ) / 1000000)
            (1 / 10000) (1 / 50)
      else stFresh.dt_imu_avg :=
  C4_theorem p0 true none true stFresh 1000 10000 10000 V3.zero V3.zero (by decide)

/-- A flow message whose first gyro component is non-finite (a NaN payload)
while the other two are finite. -/
def fmC2 : flow_message where
  flowdata := V2.zero
  gyrodata := ⟨7, 5, 5⟩
  gyrodata_finite := (false, true, true)
  dt := 40000
  quality := 200

/-- A flow message whose gyro vector is entirely non-finite. -/
def fmNaN : flow_message where
  flowdata := V2.zero
  gyrodata := ⟨7, 5, 5⟩
  gyrodata_finite := (false, false, false)
  dt := 40000
  quality := 200

/-- C2 counterexample: with gyro component 0 non-finite but components 1 and
2 finite, the source takes the driver-gyro branch (its condition conjoins the
three `!PX4_ISFINITE` tests), storing `gyroXYZ = -gyrodata = (-7,-5,-5)` —
not the IMU-derived `delta_ang / delta_ang_dt = (1,0,0)` that the claim's
"any component non-finite" condition predicts. -/
theorem C2_counterexample :
    fmC2.gyrodata_finite.1 = false ∧
    (flowGyroSource baseState 980000 fmC2).1 = false ∧
    (flowGyroSource baseState 980000 fmC2).2 = ⟨-7, -5, -5⟩ ∧
    (setOpticalFlowData p0 true false baseState 1000000 fmC2).flow_buffer.data.getLast? =
      some (flowSampleOf p0 baseState 1000000 fmC2) ∧
    (flowSampleOf p0 baseState 1000000 fmC2).gyroXYZ = ⟨-7, -5, -5⟩ ∧
    ¬(flowGyroSource baseState 980000 fmC2).2 =
      (((baseState.imu_buffer.read_first_older_than 980000).getD default).delta_ang).sdiv
        ((baseState.imu_buffer.read_first_older_than 980000).getD default).delta_ang_dt := by
  refine ⟨by decide, by decide, by decide, ?_, by decide, ?_⟩
  · rw [setOpticalFlowData_accept p0 true false baseState 1000000 fmC2
      (by decide) (by decide) (by decide) (by decide) (by simp)]
    exact RB.getLast?_push _ _
  · rw [show baseState.imu_buffer.read_first_older_than 980000 = some imuB from by decide,
      show (flowGyroSource baseState 980000 fmC2).2 = ⟨-7, -5, -5⟩ from by decide]
    simp only [Option.getD_some]
    intro h
    rw [show imuB.delta_ang = ⟨1, 0, 0⟩ from rfl,
      show imuB.delta_ang_dt = 1 from rfl] at h
    simp only [V3.sdiv, V3.mk.injEq] at h
    norm_num at h

/-- C2 (amended): the `no_gyro` fallback of `setOpticalFlowData` is taken
exactly when EVERY component of the driver-supplied `gyrodata` is non-finite;
in that case the gyro rate is derived from the nearest IMU sample at or
before the flow mid-point as `delta_ang / delta_ang_dt`; when at least one
component is finite, `gyroXYZ = -gyrodata` is used. -/
theorem C2_theorem (st : EstimatorState) (mid : ℕ) (flow : flow_message)
    (matching : imuSample)
    (hm : st.imu_buffer.read_first_older_than mid = some matching) :
    ((flowGyroSource st mid flow).1 = true ↔
      (flow.gyrodata_finite.1 = false ∧ flow.gyrodata_finite.2.1 = false ∧
        flow.gyrodata_finite.2.2 = false)) ∧
    ((flow.gyrodata_finite.1 = false ∧ flow.gyrodata_finite.2.1 = false ∧
        flow.gyrodata_finite.2.2 = false) →
      (flowGyroSource st mid flow).2 = matching.delta_ang.sdiv matching.delta_ang_dt) ∧
    ((flow.gyrodata_finite.1 = true ∨ flow.gyrodata_finite.2.1 = true ∨
        flow.gyrodata_finite.2.2 = true) →
      (flowGyroSource st mid flow).2 = flow.gyrodata.neg) := by
  unfold flowGyroSource
  by_cases h : flow.gyrodata_finite.1 = false ∧ flow.gyrodata_finite.2.1 = false ∧
      flow.gyrodata_finite.2.2 = false
  · rw [if_pos h, hm]
    refine ⟨by simp [h], fun _ => rfl, ?_⟩
    rintro (h1 | h1 | h1) <;> simp_all
  · rw [if_neg h]
    refine ⟨by simp [h], fun hx => absurd hx h, fun _ => rfl⟩

/-- C2 witness: with all three gyro components non-finite, the fallback fires
and the gyro is taken from the buffered IMU sample. -/
theorem C2_witness :
    (flowGyroSource baseState 980000 fmNaN).1 = true ∧
    (flowGyroSource baseState 980000 fmNaN).2 = imuB.delta_ang.sdiv imuB.delta_ang_dt :=
  have h := C2_theorem baseState 980000 fmNaN imuB (by decide)
  ⟨h.1.mpr (by decide), h.2.1 (by decide)⟩

/-- A concrete GPS message with a 3D fix. -/
def gFix3 : gps_message where
  time_usec := 30000
  fix_type := 3
  vel_ned := ⟨1, 2, 3⟩
  vel_ned_valid := true
  sacc := 1
  eph := 2
  epv := 3
  alt := 100000
  lat := 471234567
  lon := 85551234

/-- C7: `setGpsData` pushes a sample only when GPS is needed (`fusion_mode`
requests GPS or the vertical-distance sensor is GPS) and `fix_type > 2` and
the rate limit passes; when accepted with `collect_gps` reporting no origin,
the horizontal position is `(0, 0)` and the sample is still pushed. -/
theorem C7_theorem (p : Params) (aok cg : Bool) (proj : ℚ → ℚ → ℚ × ℚ)
    (st : EstimatorState) (t : ℕ) (g : gps_message)
    (hi : st.initialised = true) (hf : st.gps_buffer_fail = false)
    (hc : ¬st.gps_buffer.get_length < st.obs_buffer_length) :
    (¬((u64sub t st.time_last_gps > st.min_obs_interval_us) ∧
        ((p.fusion_mode &&& MASK_USE_GPS ≠ 0) ∨ p.vdist_sensor_type = VDIST_SENSOR_GPS) ∧
        g.fix_type > 2) →
      setGpsData p aok cg proj st t g = st) ∧
    (u64sub t st.time_last_gps > st.min_obs_interval_us →
      ((p.fusion_mode &&& MASK_USE_GPS ≠ 0) ∨ p.vdist_sensor_type = VDIST_SENSOR_GPS) →
      g.fix_type > 2 →
      (∃ s, (setGpsData p aok cg proj st t g).gps_buffer.data.getLast? = some s) ∧
      (∃ s, (setGpsData p aok false proj st t g).gps_buffer.data.getLast? = some s ∧
        s.pos = ⟨0, 0⟩)) := by
  constructor
  · exact fun h => setGpsData_reject p aok cg proj st t g hi hf hc h
  · intro hr hn hfix
    constructor
    · rw [setGpsData_accept p aok cg proj st t g hi hf hc hr hn hfix]
      exact ⟨_, RB.getLast?_push _ _⟩
    · rw [setGpsData_accept p aok false proj st t g hi hf hc hr hn hfix]
      exact ⟨_, RB.getLast?_push _ _, rfl⟩

/-- C7 witness: concrete acceptance with `fix_type = 3` and no origin set
(position zeroed, sample pushed), and concrete rejection of the same message
with `fix_type = 2`. -/
theorem C7_witness :
    ((∃ s, (setGpsData p0 true false (fun x y => (x + y, x - y)) baseState 30000
        gFix3).gps_buffer.data.getLast? = some s) ∧
     (∃ s, (setGpsData p0 true false (fun x y => (x + y, x - y)) baseState 30000
        gFix3).gps_buffer.data.getLast? = some s ∧ s.pos = ⟨0, 0⟩)) ∧
    setGpsData p0 true false (fun x y => (x + y, x - y)) baseState 30000
      { gFix3 with fix_type := 2 } = baseState :=
  ⟨(C7_theorem p0 true false (fun x y => (x + y, x - y)) baseState 30000 gFix3
      (by decide) (by decide) (by decide)).2 (by decide) (by decide) (by decide),
   (C7_theorem p0 true false (fun x y => (x + y, x - y)) baseState 30000
      { gFix3 with fix_type := 2 } (by decide) (by decide) (by decide)).1
      (by intro h; exact absurd h.2.2 (by decide))⟩

/-- The drag accumulator's reset value (count 0, zero sums). -/
def dragReset : ℕ × dragSample × ℚ := (0, ⟨0, V2.zero⟩, 0)

/-- Iterates `dragAccumulate` over a list of down-sampled IMU samples,
collecting the emitted drag samples in order. -/
def dragRun (imu_len obs_len : ℕ) (acc : ℕ × dragSample × ℚ) :
    List imuSample → (ℕ × dragSample × ℚ) × List dragSample
  | [] => (acc, [])
  | s :: rest =>
    let r := dragAccumulate imu_len obs_len acc.1 acc.2.1 acc.2.2 s
    let w := dragRun imu_len obs_len r.1 rest
    (w.1, r.2.toList ++ w.2)

/-- Running the accumulator from a count below the ratio emits
`(count + k) / N` samples over `k` inputs and leaves count `(count + k) % N`. -/
theorem dragRun_length (imu_len obs_len : ℕ) (l : List imuSample) :
    ∀ acc : ℕ × dragSample × ℚ,
    acc.1 < max 5 (((imu_len + obs_len - 1) / obs_len) % 256) →
    (dragRun imu_len obs_len acc l).2.length =
      (acc.1 + l.length) / max 5 (((imu_len + obs_len - 1) / obs_len) % 256) ∧
    (dragRun imu_len obs_len acc l).1.1 =
      (acc.1 + l.length) % max 5 (((imu_len + obs_len - 1) / obs_len) % 256) := by
  induction l with
  | nil =>
    intro acc hacc
    exact ⟨by simp [dragRun, Nat.div_eq_of_lt hacc],
      by simp [dragRun, Nat.mod_eq_of_lt hacc]⟩
  | cons s rest ih =>
    intro acc hacc
    have h5 : 0 < max 5 (((imu_len + obs_len - 1) / obs_len) % 256) :=
      lt_of_lt_of_le (by norm_num) (le_max_left _ _)
    simp only [dragRun]
    unfold dragAccumulate
    by_cases h : acc.1 + 1 ≥ max 5 (((imu_len + obs_len - 1) / obs_len) % 256)
    · have hN : acc.1 + 1 = max 5 (((imu_len + obs_len - 1) / obs_len) % 256) :=
        le_antisymm hacc h
      rw [if_pos h]
      have ih0 := ih (0, ⟨0, V2.zero⟩, 0) h5
      dsimp only at ih0
      simp only [List.length_cons, Option.toList_some, List.length_append,
        List.length_singleton]
      rw [ih0.1, ih0.2]
      constructor
      · rw [Nat.zero_add,
          show acc.1 + (rest.length + 1) = rest.length + (acc.1 + 1) by omega,
          hN, Nat.add_div_right _ h5]
        simp only [List.length_nil]
        omega
      · rw [Nat.zero_add,
          show acc.1 + (rest.length + 1) = rest.length + (acc.1 + 1) by omega,
          hN, Nat.add_mod_right]
    · rw [if_neg h]
      have hlt : acc.1 + 1 < max 5 (((imu_len + obs_len - 1) / obs_len) % 256) :=
        lt_of_not_ge h
      have ihn := ih (acc.1 + 1, ⟨(acc.2.1.time_us + s.time_us) % 2 ^ 64,
        ⟨acc.2.1.accelXY.x + s.delta_vel.x, acc.2.1.accelXY.y + s.delta_vel.y⟩⟩,
        acc.2.2 + s.delta_vel_dt) hlt
      simp only [List.length_cons, Option.toList_none, List.nil_append] at ihn ⊢
      rw [ihn.1, ihn.2]
      constructor
      · congr 1
        omega
      · congr 1
        omega

/-- C6: with drag fusion enabled and the drag buffer allocated, the drag
downsampler emits, each time the accumulated count reaches
`N = max(5, ⌈imu_buffer_length/obs_buffer_length⌉)`, one drag sample whose
`accelXY` is the accumulated delta-velocity divided by the accumulated
`delta_vel_dt` and whose `time_us` is the accumulated time divided by the
count, then resets all accumulators; feeding `k` samples from reset emits
exactly `⌊k / N⌋` drag samples.  (The `uint8_t` cast of the ratio is the
identity below 256, hence the `≤ 255` hypothesis; the third part ties the
accumulator step to the drag branch `dragStep` of `setIMUData` under an
allocated buffer and an unlatched fail flag.) -/
theorem C6_theorem (imu_len obs_len : ℕ)
    (hsmall : (imu_len + obs_len - 1) / obs_len ≤ 255) :
    (∀ l : List imuSample,
      (dragRun imu_len obs_len dragReset l).2.length =
        l.length / max 5 ((imu_len + obs_len - 1) / obs_len)) ∧
    (∀ (count : ℕ) (down : dragSample) (dt_sum : ℚ) (s : imuSample),
      count + 1 ≥ max 5 ((imu_len + obs_len - 1) / obs_len) →
      dragAccumulate imu_len obs_len count down dt_sum s =
        ((0, ⟨0, V2.zero⟩, 0),
          some ⟨(down.time_us + s.time_us) % 2 ^ 64 / (count + 1),
            ⟨(down.accelXY.x + s.delta_vel.x) / (dt_sum + s.delta_vel_dt),
              (down.accelXY.y + s.delta_vel.y) / (dt_sum + s.delta_vel_dt)⟩⟩)) ∧
    (∀ (dok : Bool) (buf : RB dragSample) (c : ℕ) (d : dragSample) (q : ℚ)
        (s : imuSample),
      ¬buf.get_length < obs_len →
      dragStep dok imu_len obs_len false buf c d q s =
        (false,
         (match (dragAccumulate imu_len obs_len c d q s).2 with
          | some ds => buf.push ds
          | none => buf),
         (dragAccumulate imu_len obs_len c d q s).1.1,
         (dragAccumulate imu_len obs_len c d q s).1.2.1,
         (dragAccumulate imu_len obs_len c d q s).1.2.2)) := by
  have hmod : ((imu_len + obs_len - 1) / obs_len) % 256 =
      (imu_len + obs_len - 1) / obs_len :=
    Nat.mod_eq_of_lt (lt_of_le_of_lt hsmall (by norm_num))
  refine ⟨fun l => ?_, fun count down dt_sum s hge => ?_,
    fun dok buf c d q s hc => ?_⟩
  · have h := (dragRun_length imu_len obs_len l dragReset
      (lt_of_lt_of_le (by decide) (le_max_left _ _))).1
    rw [hmod] at h
    simpa [dragReset] using h
  · unfold dragAccumulate
    rw [if_pos (by rw [hmod]; exact hge)]
  · unfold dragStep
    simp only [Bool.false_eq_true, if_false]
    rw [if_neg (fun h => hc h.1), if_neg hc]
    cases hr2 : (dragAccumulate imu_len obs_len c d q s).2 <;> simp [hr2]

/-- Ten identical down-sampled IMU samples. -/
def imuTen : List imuSample := List.replicate 10 imuB

/-- C6 witness: with `imu_buffer_length = 15`, `obs_buffer_length = 14` the
ratio is `max(5, 2) = 5`, and ten samples emit exactly two drag samples. -/
theorem C6_witness :
    (dragRun 15 14 dragReset imuTen).2.length =
      imuTen.length / max 5 ((15 + 14 - 1) / 14) ∧
    imuTen.length / max 5 ((15 + 14 - 1) / 14) = 2 :=
  ⟨(C6_theorem 15 14 (by decide)).1 imuTen, by decide⟩

/-- The raw IMU sample built by `setIMUData` from its arguments. -/
def rawOf (t adt vdt : ℕ) (da dv : V3) : imuSample where
  time_us := t
  delta_ang := da
  delta_vel := dv
  delta_ang_dt := (adt : ℚ) / 1000000
  delta_vel_dt := (vdt : ℚ) / 1000000

set_option maxRecDepth 4000 in
/-- `setIMUData` on an initialised state when the down-sampler reports a
sample ready and drag fusion is enabled: the down-sampled sample is pushed,
the fusion horizon and minimum observation interval are recomputed, and the
drag members evolve by `dragStep`. -/
theorem setIMUData_some_drag (p : Params) (iok dok : Bool) (st : EstimatorState)
    (t adt vdt : ℕ) (da dv : V3) (down : imuSample)
    (hi : st.initialised = true)
    (hmask : p.fusion_mode &&& MASK_USE_DRAG ≠ 0) :
    setIMUData p iok (some down) dok st t adt vdt da dv =
      { st with
        time_last_imu := t
        dt_imu_avg :=
          if 0 < t then
            (8 / 10) * st.dt_imu_avg +
              (2 / 10) * constrain ((u64sub t st.time_last_imu : ℚ) / 1000000)
                (1 / 10000) (1 / 50)
          else st.dt_imu_avg
        imu_ticks := 0
        imu_updated := true
        imu_sample_new := rawOf t adt vdt da dv
        imu_buffer := st.imu_buffer.push down
        imu_sample_delayed := (st.imu_buffer.push down).get_oldest
        min_obs_interval_us :=
          u64sub t ((st.imu_buffer.push down).get_oldest).time_us /
            (st.obs_buffer_length - 1)
        drag_buffer_fail :=
          (dragStep dok st.imu_buffer_length st.obs_buffer_length
            st.drag_buffer_fail st.drag_buffer st.drag_sample_count
            st.drag_down_sampled st.drag_sample_time_dt down).1
        drag_buffer :=
          (dragStep dok st.imu_buffer_length st.obs_buffer_length
            st.drag_buffer_fail st.drag_buffer st.drag_sample_count
            st.drag_down_sampled st.drag_sample_time_dt down).2.1
        drag_sample_count :=
          (dragStep dok st.imu_buffer_length st.obs_buffer_length
            st.drag_buffer_fail st.drag_buffer st.drag_sample_count
            st.drag_down_sampled st.drag_sample_time_dt down).2.2.1
        drag_down_sampled :=
          (dragStep dok st.imu_buffer_length st.obs_buffer_length
            st.drag_buffer_fail st.drag_buffer st.drag_sample_count
            st.drag_down_sampled st.drag_sample_time_dt down).2.2.2.1
        drag_sample_time_dt :=
          (dragStep dok st.imu_buffer_length st.obs_buffer_length
            st.drag_buffer_fail st.drag_buffer st.drag_sample_count
            st.drag_down_sampled st.drag_sample_time_dt down).2.2.2.2 } := by
  unfold setIMUData
  rw [hi, if_pos rfl]
  dsimp only
  by_cases ht : 0 < t
  · simp only [if_pos ht, if_pos hmask, hi]
    rfl
  · simp only [if_neg ht, if_pos hmask, hi]
    rfl

/-- Parameters with drag fusion enabled (`MASK_USE_GPS | MASK_USE_DRAG`). -/
def pDrag : Params := { p0 with fusion_mode := 33 }

/-- The base state before the drag buffer has ever been allocated. -/
def stDragNew : EstimatorState := { baseState with drag_buffer := ⟨0, []⟩ }

/-- The base state after a latched drag-buffer allocation failure. -/
def stDragFailed : EstimatorState := { baseState with drag_buffer_fail := true }

/-- C10: in `setIMUData` with drag fusion enabled, when the lazy allocation of
the drag buffer fails the routine latches `_drag_buffer_fail` and returns,
but keeps the effects already committed in that call: the down-sampled sample
stays pushed, `_imu_updated` stays true, and `_imu_sample_delayed` and
`_min_obs_interval_us` keep their new values, while the drag accumulators and
buffer are untouched; on every later call with drag fusion enabled the drag
block is skipped entirely (fail flag and drag state unchanged) while the IMU
path operates normally. -/
theorem C10_theorem (p : Params) (iok : Bool) (st st2 : EstimatorState)
    (t adt vdt : ℕ) (da dv : V3) (down : imuSample) (dok : Bool)
    (hi : st.initialised = true)
    (hmask : p.fusion_mode &&& MASK_USE_DRAG ≠ 0)
    (hnf : st.drag_buffer_fail = false)
    (hsz : st.drag_buffer.get_length < st.obs_buffer_length)
    (hi2 : st2.initialised = true)
    (hff : st2.drag_buffer_fail = true) :
    ((setIMUData p iok (some down) false st t adt vdt da dv).drag_buffer_fail = true ∧
     (setIMUData p iok (some down) false st t adt vdt da dv).imu_buffer =
       st.imu_buffer.push down ∧
     (setIMUData p iok (some down) false st t adt vdt da dv).imu_updated = true ∧
     (setIMUData p iok (some down) false st t adt vdt da dv).imu_sample_delayed =
       (st.imu_buffer.push down).get_oldest ∧
     (setIMUData p iok (some down) false st t adt vdt da dv).min_obs_interval_us =
       u64sub t ((st.imu_buffer.push down).get_oldest).time_us /
         (st.obs_buffer_length - 1) ∧
     (setIMUData p iok (some down) false st t adt vdt da dv).drag_buffer =
       st.drag_buffer ∧
     (setIMUData p iok (some down) false st t adt vdt da dv).drag_sample_count =
       st.drag_sample_count ∧
     (setIMUData p iok (some down) false st t adt vdt da dv).drag_down_sampled =
       st.drag_down_sampled ∧
     (setIMUData p iok (some down) false st t adt vdt da dv).drag_sample_time_dt =
       st.drag_sample_time_dt) ∧
    ((setIMUData p iok (some down) dok st2 t adt vdt da dv).drag_buffer_fail = true ∧
     (setIMUData p iok (some down) dok st2 t adt vdt da dv).drag_buffer =
       st2.drag_buffer ∧
     (setIMUData p iok (some down) dok st2 t adt vdt da dv).drag_sample_count =
       st2.drag_sample_count ∧
     (setIMUData p iok (some down) dok st2 t adt vdt da dv).drag_down_sampled =
       st2.drag_down_sampled ∧
     (setIMUData p iok (some down) dok st2 t adt vdt da dv).drag_sample_time_dt =
       st2.drag_sample_time_dt ∧
     (setIMUData p iok (some down) dok st2 t adt vdt da dv).imu_buffer =
       st2.imu_buffer.push down ∧
     (setIMUData p iok (some down) dok st2 t adt vdt da dv).imu_updated = true ∧
     (setIMUData p iok (some down) dok st2 t adt vdt da dv).imu_sample_delayed =
       (st2.imu_buffer.push down).get_oldest ∧
     (setIMUData p iok (some down) dok st2 t adt vdt da dv).min_obs_interval_us =
       u64sub t ((st2.imu_buffer.push down).get_oldest).time_us /
         (st2.obs_buffer_length - 1)) := by
  constructor
  · rw [setIMUData_some_drag p iok false st t adt vdt da dv down hi hmask]
    unfold dragStep
    rw [hnf]
    simp [hsz]
  · rw [setIMUData_some_drag p iok dok st2 t adt vdt da dv down hi2 hmask]
    unfold dragStep
    rw [hff]
    simp

/-- C10 witness: concrete failed-allocation call and a concrete later call on
the latched state. -/
theorem C10_witness :
    (setIMUData pDrag true (some imuB) false stDragNew 1010000 10000 10000
      V3.zero V3.zero).drag_buffer_fail = true ∧
    (setIMUData pDrag true (some imuB) true stDragFailed 1010000 10000 10000
      V3.zero V3.zero).drag_buffer = stDragFailed.drag_buffer :=
  have h := C10_theorem pDrag true stDragNew stDragFailed 1010000 10000 10000
    V3.zero V3.zero imuB true (by decide) (by decide) (by decide) (by decide)
    (by decide) (by decide)
  ⟨h.1.1, h.2.2.1⟩

/-- Two chained `uint64` subtractions on in-range operands are plain
subtraction. -/
theorem u64sub_chain (t a b : ℕ) (h : a + b ≤ t) (h2 : t < 2 ^ 64) :
    u64sub (u64sub t a) b = t - a - b := by
  rw [u64sub_of_le (by omega) h2, u64sub_of_le (by omega) (by omega)]

/-- Consecutive accepted mag samples with non-decreasing presented times and
no back-dating underflow store non-decreasing timestamps. -/
theorem setMagData_mono (p : Params) (aok : Bool) (st : EstimatorState)
    (t1 t2 : ℕ) (d1 d2 : V3)
    (hi : st.initialised = true) (hf : st.mag_buffer_fail = false)
    (hc : ¬st.mag_buffer.get_length < st.obs_buffer_length)
    (hr1 : u64sub t1 st.time_last_mag > st.min_obs_interval_us)
    (hr2 : u64sub t2 t1 > st.min_obs_interval_us)
    (hle : t1 ≤ t2) (hb : t2 < 2 ^ 64)
    (hoff : p.mag_delay_ms * 1000 + p.filter_update_period_ms * 1000 / 2 ≤ t1) :
    ∃ s1 s2,
      (setMagData p aok st t1 d1).mag_buffer.data.getLast? = some s1 ∧
      (setMagData p aok (setMagData p aok st t1 d1) t2 d2).mag_buffer.data.getLast? =
        some s2 ∧
      s1.time_us ≤ s2.time_us := by
  have e1 := setMagData_accept p aok st t1 d1 hi hf hc hr1
  have hc1 : ¬(setMagData p aok st t1 d1).mag_buffer.get_length <
      (setMagData p aok st t1 d1).obs_buffer_length := by
    rw [e1]
    simpa [RB.get_length_push] using hc
  have e2 := setMagData_accept p aok (setMagData p aok st t1 d1) t2 d2
    (by rw [e1]; exact hi) (by rw [e1]; exact hf) hc1 (by rw [e1]; exact hr2)
  refine ⟨{ time_us := u64sub (u64sub t1 (p.mag_delay_ms * 1000))
              (p.filter_update_period_ms * 1000 / 2), mag := d1 },
          { time_us := u64sub (u64sub t2 (p.mag_delay_ms * 1000))
              (p.filter_update_period_ms * 1000 / 2), mag := d2 }, ?_, ?_, ?_⟩
  · rw [e1]
    exact RB.getLast?_push _ _
  · rw [e2]
    exact RB.getLast?_push _ _
  · dsimp only
    rw [u64sub_chain t1 _ _ hoff (lt_of_le_of_lt hle hb),
      u64sub_chain t2 _ _ (le_trans hoff hle) hb]
    omega

/-- Baro analogue of `setMagData_mono`; the stored time also carries the
clamp against the (unchanged) delayed-IMU timestamp. -/
theorem setBaroData_mono (p : Params) (aok : Bool) (st : EstimatorState)
    (t1 t2 : ℕ) (d1 d2 : ℚ)
    (hi : st.initialised = true) (hf : st.baro_buffer_fail = false)
    (hc : ¬st.baro_buffer.get_length < st.obs_buffer_length)
    (hr1 : u64sub t1 st.time_last_baro > st.min_obs_interval_us)
    (hr2 : u64sub t2 t1 > st.min_obs_interval_us)
    (hle : t1 ≤ t2) (hb : t2 < 2 ^ 64)
    (hoff : p.baro_delay_ms * 1000 + p.filter_update_period_ms * 1000 / 2 ≤ t1) :
    ∃ s1 s2,
      (setBaroData p aok st t1 d1).baro_buffer.data.getLast? = some s1 ∧
      (setBaroData p aok (setBaroData p aok st t1 d1) t2 d2).baro_buffer.data.getLast? =
        some s2 ∧
      s1.time_us ≤ s2.time_us := by
  have e1 := setBaroData_accept p aok st t1 d1 hi hf hc hr1
  have hc1 : ¬(setBaroData p aok st t1 d1).baro_buffer.get_length <
      (setBaroData p aok st t1 d1).obs_buffer_length := by
    rw [e1]
    simpa [RB.get_length_push] using hc
  have e2 := setBaroData_accept p aok (setBaroData p aok st t1 d1) t2 d2
    (by rw [e1]; exact hi) (by rw [e1]; exact hf) hc1 (by rw [e1]; exact hr2)
  refine ⟨{ time_us := max (u64sub (u64sub t1 (p.baro_delay_ms * 1000))
              (p.filter_update_period_ms * 1000 / 2)) st.imu_sample_delayed.time_us,
            hgt := d1 },
          { time_us := max (u64sub (u64sub t2 (p.baro_delay_ms * 1000))
              (p.filter_update_period_ms * 1000 / 2)) st.imu_sample_delayed.time_us,
            hgt := d2 }, ?_, ?_, ?_⟩
  · rw [e1]
    exact RB.getLast?_push _ _
  · rw [e2, e1]
    exact RB.getLast?_push _ _
  · dsimp only
    rw [u64sub_chain t1 _ _ hoff (lt_of_le_of_lt hle hb),
      u64sub_chain t2 _ _ (le_trans hoff hle) hb]
    exact max_le_max (by omega) (le_refl _)

/-- Airspeed analogue of `setMagData_mono`. -/
theorem setAirspeedData_mono (p : Params) (aok : Bool) (st : EstimatorState)
    (t1 t2 : ℕ) (a1 a2 e1q e2q : ℚ)
    (hi : st.initialised = true) (hf : st.airspeed_buffer_fail = false)
    (hc : ¬st.airspeed_buffer.get_length < st.obs_buffer_length)
    (hr1 : u64sub t1 st.time_last_airspeed > st.min_obs_interval_us)
    (hr2 : u64sub t2 t1 > st.min_obs_interval_us)
    (hle : t1 ≤ t2) (hb : t2 < 2 ^ 64)
    (hoff : p.airspeed_delay_ms * 1000 + p.filter_update_period_ms * 1000 / 2 ≤ t1) :
    ∃ s1 s2,
      (setAirspeedData p aok st t1 a1 e1q).airspeed_buffer.data.getLast? = some s1 ∧
      (setAirspeedData p aok (setAirspeedData p aok st t1 a1 e1q) t2 a2
        e2q).airspeed_buffer.data.getLast? = some s2 ∧
      s1.time_us ≤ s2.time_us := by
  have e1 := setAirspeedData_accept p aok st t1 a1 e1q hi hf hc hr1
  have hc1 : ¬(setAirspeedData p aok st t1 a1 e1q).airspeed_buffer.get_length <
      (setAirspeedData p aok st t1 a1 e1q).obs_buffer_length := by
    rw [e1]
    simpa [RB.get_length_push] using hc
  have e2 := setAirspeedData_accept p aok (setAirspeedData p aok st t1 a1 e1q) t2 a2 e2q
    (by rw [e1]; exact hi) (by rw [e1]; exact hf) hc1 (by rw [e1]; exact hr2)
  refine ⟨{ time_us := u64sub (u64sub t1 (p.airspeed_delay_ms * 1000))
              (p.filter_update_period_ms * 1000 / 2),
            true_airspeed := a1, eas2tas := e1q },
          { time_us := u64sub (u64sub t2 (p.airspeed_delay_ms * 1000))
              (p.filter_update_period_ms * 1000 / 2),
            true_airspeed := a2, eas2tas := e2q }, ?_, ?_, ?_⟩
  · rw [e1]
    exact RB.getLast?_push _ _
  · rw [e2]
    exact RB.getLast?_push _ _
  · dsimp only
    rw [u64sub_chain t1 _ _ hoff (lt_of_le_of_lt hle hb),
      u64sub_chain t2 _ _ (le_trans hoff hle) hb]
    omega

/-- Aux-velocity analogue of `setMagData_mono`. -/
theorem setAuxVelData_mono (p : Params) (aok : Bool) (st : EstimatorState)
    (t1 t2 : ℕ) (d1 d2 v1 v2 : V2)
    (hi : st.initialised = true) (hf : st.auxvel_buffer_fail = false)
    (hc : ¬st.auxvel_buffer.get_length < st.obs_buffer_length)
    (hr1 : u64sub t1 st.time_last_auxvel > st.min_obs_interval_us)
    (hr2 : u64sub t2 t1 > st.min_obs_interval_us)
    (hle : t1 ≤ t2) (hb : t2 < 2 ^ 64)
    (hoff : p.auxvel_delay_ms * 1000 + p.filter_update_period_ms * 1000 / 2 ≤ t1) :
    ∃ s1 s2,
      (setAuxVelData p aok st t1 d1 v1).auxvel_buffer.data.getLast? = some s1 ∧
      (setAuxVelData p aok (setAuxVelData p aok st t1 d1 v1) t2 d2
        v2).auxvel_buffer.data.getLast? = some s2 ∧
      s1.time_us ≤ s2.time_us := by
  have e1 := setAuxVelData_accept p aok st t1 d1 v1 hi hf hc hr1
  have hc1 : ¬(setAuxVelData p aok st t1 d1 v1).auxvel_buffer.get_length <
      (setAuxVelData p aok st t1 d1 v1).obs_buffer_length := by
    rw [e1]
    simpa [RB.get_length_push] using hc
  have e2 := setAuxVelData_accept p aok (setAuxVelData p aok st t1 d1 v1) t2 d2 v2
    (by rw [e1]; exact hi) (by rw [e1]; exact hf) hc1 (by rw [e1]; exact hr2)
  refine ⟨{ time_us := u64sub (u64sub t1 (p.auxvel_delay_ms * 1000))
              (p.filter_update_period_ms * 1000 / 2), velNE := d1, velVarNE := v1 },
          { time_us := u64sub (u64sub t2 (p.auxvel_delay_ms * 1000))
              (p.filter_update_period_ms * 1000 / 2), velNE := d2, velVarNE := v2 },
          ?_, ?_, ?_⟩
  · rw [e1]
    exact RB.getLast?_push _ _
  · rw [e2]
    exact RB.getLast?_push _ _
  · dsimp only
    rw [u64sub_chain t1 _ _ hoff (lt_of_le_of_lt hle hb),
      u64sub_chain t2 _ _ (le_trans hoff hle) hb]
    omega

/-- Range analogue (single back-dating term). -/
theorem setRangeData_mono (p : Params) (aok : Bool) (st : EstimatorState)
    (t1 t2 : ℕ) (d1 d2 : ℚ)
    (hi : st.initialised = true) (hf : st.range_buffer_fail = false)
    (hc : ¬st.range_buffer.get_length < st.obs_buffer_length)
    (hr1 : u64sub t1 st.time_last_range > st.min_obs_interval_us)
    (hr2 : u64sub t2 t1 > st.min_obs_interval_us)
    (hle : t1 ≤ t2) (hb : t2 < 2 ^ 64)
    (hoff : p.range_delay_ms * 1000 ≤ t1) :
    ∃ s1 s2,
      (setRangeData p aok st t1 d1).range_buffer.data.getLast? = some s1 ∧
      (setRangeData p aok (setRangeData p aok st t1 d1) t2 d2).range_buffer.data.getLast? =
        some s2 ∧
      s1.time_us ≤ s2.time_us := by
  have e1 := setRangeData_accept p aok st t1 d1 hi hf hc hr1
  have hc1 : ¬(setRangeData p aok st t1 d1).range_buffer.get_length <
      (setRangeData p aok st t1 d1).obs_buffer_length := by
    rw [e1]
    simpa [RB.get_length_push] using hc
  have e2 := setRangeData_accept p aok (setRangeData p aok st t1 d1) t2 d2
    (by rw [e1]; exact hi) (by rw [e1]; exact hf) hc1 (by rw [e1]; exact hr2)
  refine ⟨{ time_us := u64sub t1 (p.range_delay_ms * 1000), rng := d1 },
          { time_us := u64sub t2 (p.range_delay_ms * 1000), rng := d2 }, ?_, ?_, ?_⟩
  · rw [e1]
    exact RB.getLast?_push _ _
  · rw [e2]
    exact RB.getLast?_push _ _
  · dsimp only
    rw [u64sub_of_le hoff (lt_of_le_of_lt hle hb),
      u64sub_of_le (le_trans hoff hle) hb]
    omega

/-- External-vision analogue (single back-dating term). -/
theorem setExtVisionData_mono (p : Params) (aok : Bool) (st : EstimatorState)
    (t1 t2 : ℕ) (e1m e2m : ext_vision_message)
    (hi : st.initialised = true) (hf : st.ev_buffer_fail = false)
    (hc : ¬st.ext_vision_buffer.get_length < st.obs_buffer_length)
    (hr1 : u64sub t1 st.time_last_ext_vision > st.min_obs_interval_us)
    (hr2 : u64sub t2 t1 > st.min_obs_interval_us)
    (hle : t1 ≤ t2) (hb : t2 < 2 ^ 64)
    (hoff : p.ev_delay_ms * 1000 ≤ t1) :
    ∃ s1 s2,
      (setExtVisionData p aok st t1 e1m).ext_vision_buffer.data.getLast? = some s1 ∧
      (setExtVisionData p aok (setExtVisionData p aok st t1 e1m) t2
        e2m).ext_vision_buffer.data.getLast? = some s2 ∧
      s1.time_us ≤ s2.time_us := by
  have e1 := setExtVisionData_accept p aok st t1 e1m hi hf hc hr1
  have hc1 : ¬(setExtVisionData p aok st t1 e1m).ext_vision_buffer.get_length <
      (setExtVisionData p aok st t1 e1m).obs_buffer_length := by
    rw [e1]
    simpa [RB.get_length_push] using hc
  have e2 := setExtVisionData_accept p aok (setExtVisionData p aok st t1 e1m) t2 e2m
    (by rw [e1]; exact hi) (by rw [e1]; exact hf) hc1 (by rw [e1]; exact hr2)
  refine ⟨{ time_us := u64sub t1 (p.ev_delay_ms * 1000), quat := e1m.quat,
            posNED := e1m.posNED, angErr := e1m.angErr, posErr := e1m.posErr },
          { time_us := u64sub t2 (p.ev_delay_ms * 1000), quat := e2m.quat,
            posNED := e2m.posNED, angErr := e2m.angErr, posErr := e2m.posErr },
          ?_, ?_, ?_⟩
  · rw [e1]
    exact RB.getLast?_push _ _
  · rw [e2]
    exact RB.getLast?_push _ _
  · dsimp only
    rw [u64sub_of_le hoff (lt_of_le_of_lt hle hb),
      u64sub_of_le (le_trans hoff hle) hb]
    omega

/-- GPS analogue: the stored timestamp derives from the message's own
`time_usec` and is clamped against the (unchanged) delayed-IMU timestamp. -/
theorem setGpsData_mono (p : Params) (aok cg : Bool) (proj : ℚ → ℚ → ℚ × ℚ)
    (st : EstimatorState) (t1 t2 : ℕ) (g1 g2 : gps_message)
    (hi : st.initialised = true) (hf : st.gps_buffer_fail = false)
    (hc : ¬st.gps_buffer.get_length < st.obs_buffer_length)
    (hr1 : u64sub t1 st.time_last_gps > st.min_obs_interval_us)
    (hr2 : u64sub t2 t1 > st.min_obs_interval_us)
    (hn : (p.fusion_mode &&& MASK_USE_GPS ≠ 0) ∨ p.vdist_sensor_type = VDIST_SENSOR_GPS)
    (hfix1 : g1.fix_type > 2) (hfix2 : g2.fix_type > 2)
    (hmle : g1.time_usec ≤ g2.time_usec) (hmb : g2.time_usec < 2 ^ 64)
    (hoff : p.gps_delay_ms * 1000 + p.filter_update_period_ms * 1000 / 2 ≤ g1.time_usec) :
    ∃ s1 s2,
      (setGpsData p aok cg proj st t1 g1).gps_buffer.data.getLast? = some s1 ∧
      (setGpsData p aok cg proj (setGpsData p aok cg proj st t1 g1) t2
        g2).gps_buffer.data.getLast? = some s2 ∧
      s1.time_us ≤ s2.time_us := by
  have e1 := setGpsData_accept p aok cg proj st t1 g1 hi hf hc hr1 hn hfix1
  have hc1 : ¬(setGpsData p aok cg proj st t1 g1).gps_buffer.get_length <
      (setGpsData p aok cg proj st t1 g1).obs_buffer_length := by
    rw [e1]
    simpa [RB.get_length_push] using hc
  have e2 := setGpsData_accept p aok cg proj (setGpsData p aok cg proj st t1 g1) t2 g2
    (by rw [e1]; exact hi) (by rw [e1]; exact hf) hc1 (by rw [e1]; exact hr2) hn hfix2
  refine ⟨{ time_us := max (u64sub (u64sub g1.time_usec (p.gps_delay_ms * 1000))
              (p.filter_update_period_ms * 1000 / 2)) st.imu_sample_delayed.time_us,
            pos := ⟨(if cg then proj ((g1.lat : ℚ) / 10000000) ((g1.lon : ℚ) / 10000000)
                     else (0, 0)).1,
                    (if cg then proj ((g1.lat : ℚ) / 10000000) ((g1.lon : ℚ) / 10000000)
                     else (0, 0)).2⟩,
            hgt := (g1.alt : ℚ) * (1 / 1000), vel := g1.vel_ned, sacc := g1.sacc,
            hacc := g1.eph, vacc := g1.epv },
          { time_us := max (u64sub (u64sub g2.time_usec (p.gps_delay_ms * 1000))
              (p.filter_update_period_ms * 1000 / 2)) st.imu_sample_delayed.time_us,
            pos := ⟨(if cg then proj ((g2.lat : ℚ) / 10000000) ((g2.lon : ℚ) / 10000000)
                     else (0, 0)).1,
                    (if cg then proj ((g2.lat : ℚ) / 10000000) ((g2.lon : ℚ) / 10000000)
                     else (0, 0)).2⟩,
            hgt := (g2.alt : ℚ) * (1 / 1000), vel := g2.vel_ned, sacc := g2.sacc,
            hacc := g2.eph, vacc := g2.epv }, ?_, ?_, ?_⟩
  · rw [e1]
    exact RB.getLast?_push _ _
  · rw [e2, e1]
    exact RB.getLast?_push _ _
  · dsimp only
    rw [u64sub_chain g1.time_usec _ _ hoff (lt_of_le_of_lt hmle hmb),
      u64sub_chain g2.time_usec _ _ (le_trans hoff hmle) hmb]
    exact max_le_max (by omega) (le_refl _)

/-- The stored timestamp of an accepted flow sample is the mid-point
back-date. -/
theorem flowSampleOf_time (p : Params) (st : EstimatorState) (t : ℕ)
    (f : flow_message) :
    (flowSampleOf p st t f).time_us =
      u64sub (u64sub t (p.flow_delay_ms * 1000)) (f.dt / 2) := rfl

/-- Flow analogue on the ground (`in_air = false`, both samples admitted by
the ground clause): stored timestamps stay non-decreasing provided the
half-integration-interval grows by at most the presented-time advance. -/
theorem setOpticalFlowData_mono (p : Params) (aok : Bool) (st : EstimatorState)
    (t1 t2 : ℕ) (f1 f2 : flow_message)
    (hi : st.initialised = true) (hf : st.flow_buffer_fail = false)
    (hc : ¬st.flow_buffer.get_length < st.obs_buffer_length)
    (hr1 : u64sub t1 st.time_last_optflow > st.min_obs_interval_us)
    (hr2 : u64sub t2 t1 > st.min_obs_interval_us)
    (hle : t1 ≤ t2) (hb : t2 < 2 ^ 64)
    (hoff1 : p.flow_delay_ms * 1000 + f1.dt / 2 ≤ t1)
    (hoff2 : p.flow_delay_ms * 1000 + f2.dt / 2 ≤ t2)
    (hdt : f2.dt / 2 ≤ f1.dt / 2 + (t2 - t1)) :
    ∃ s1 s2,
      (setOpticalFlowData p aok false st t1 f1).flow_buffer.data.getLast? = some s1 ∧
      (setOpticalFlowData p aok false (setOpticalFlowData p aok false st t1 f1) t2
        f2).flow_buffer.data.getLast? = some s2 ∧
      s1.time_us ≤ s2.time_us := by
  have e1 := setOpticalFlowData_accept p aok false st t1 f1 hi hf hc hr1 (by simp)
  have hc1 : ¬(setOpticalFlowData p aok false st t1 f1).flow_buffer.get_length <
      (setOpticalFlowData p aok false st t1 f1).obs_buffer_length := by
    rw [e1]
    simpa [RB.get_length_push] using hc
  have e2 := setOpticalFlowData_accept p aok false (setOpticalFlowData p aok false st t1 f1)
    t2 f2 (by rw [e1]; exact hi) (by rw [e1]; exact hf) hc1 (by rw [e1]; exact hr2)
    (by simp)
  refine ⟨flowSampleOf p st t1 f1,
    flowSampleOf p (setOpticalFlowData p aok false st t1 f1) t2 f2, ?_, ?_, ?_⟩
  · rw [e1]
    exact RB.getLast?_push _ _
  · rw [e2]
    exact RB.getLast?_push _ _
  · rw [flowSampleOf_time, flowSampleOf_time,
      u64sub_chain t1 _ _ hoff1 (lt_of_le_of_lt hle hb),
      u64sub_chain t2 _ _ hoff2 hb]
    omega

/-- A ground flow message with a zero integration interval. -/
def fm81 : flow_message where
  flowdata := V2.zero
  gyrodata := V3.zero
  gyrodata_finite := (true, true, true)
  dt := 0
  quality := 0

/-- The same flow message with a one-second integration interval. -/
def fm82 : flow_message := { fm81 with dt := 1000000 }

/-- C8 counterexample: two flow samples presented in increasing time order
(`1000000`, then `1021000`), both accepted (ground clause), are stored with
DECREASING timestamps `[1000000, 521000]`: the second sample's mid-point
back-date `dt/2 = 500000 µs` exceeds the presented-time advance. -/
theorem C8_counterexample :
    (1000000 : ℕ) ≤ 1021000 ∧
    (setOpticalFlowData p0 true false
        (setOpticalFlowData p0 true false baseState 1000000 fm81) 1021000
        fm82).flow_buffer.data.map flowSample.time_us = [1000000, 521000] ∧
    ¬(1000000 : ℕ) ≤ 521000 := by
  refine ⟨by decide, ?_, by decide⟩
  rw [setOpticalFlowData_accept p0 true false baseState 1000000 fm81
    (by decide) (by decide) (by decide) (by decide) (by simp)]
  rw [setOpticalFlowData_accept p0 true false _ 1021000 fm82
    (by decide) (by decide) (by decide) (by decide) (by simp)]
  decide

/-- C8 (amended): within any fixed-offset sensor buffer (mag, GPS, baro,
range, airspeed, external vision, aux velocity), consecutive accepted samples
with non-decreasing presented `time_us` (and no `uint64` back-dating
underflow) are stored with non-decreasing `time_us`; the flow buffer is
back-dated by the additional variable amount `dt/2` and its stored order is
guaranteed only when `dt/2` grows by at most the presented-time advance
between consecutive accepted samples — otherwise it can decrease
(`C8_counterexample`). -/
theorem C8_theorem (p : Params) (aok cg : Bool) (proj : ℚ → ℚ → ℚ × ℚ)
    (st : EstimatorState) (hi : st.initialised = true) :
    (∀ t1 t2 d1 d2, st.mag_buffer_fail = false →
      ¬st.mag_buffer.get_length < st.obs_buffer_length →
      u64sub t1 st.time_last_mag > st.min_obs_interval_us →
      u64sub t2 t1 > st.min_obs_interval_us → t1 ≤ t2 → t2 < 2 ^ 64 →
      p.mag_delay_ms * 1000 + p.filter_update_period_ms * 1000 / 2 ≤ t1 →
      ∃ s1 s2, (setMagData p aok st t1 d1).mag_buffer.data.getLast? = some s1 ∧
        (setMagData p aok (setMagData p aok st t1 d1) t2 d2).mag_buffer.data.getLast? =
          some s2 ∧ s1.time_us ≤ s2.time_us) ∧
    (∀ t1 t2 g1 g2, st.gps_buffer_fail = false →
      ¬st.gps_buffer.get_length < st.obs_buffer_length →
      u64sub t1 st.time_last_gps > st.min_obs_interval_us →
      u64sub t2 t1 > st.min_obs_interval_us →
      ((p.fusion_mode &&& MASK_USE_GPS ≠ 0) ∨ p.vdist_sensor_type = VDIST_SENSOR_GPS) →
      gps_message.fix_type g1 > 2 → gps_message.fix_type g2 > 2 →
      gps_message.time_usec g1 ≤ gps_message.time_usec g2 →
      gps_message.time_usec g2 < 2 ^ 64 →
      p.gps_delay_ms * 1000 + p.filter_update_period_ms * 1000 / 2 ≤
        gps_message.time_usec g1 →
      ∃ s1 s2, (setGpsData p aok cg proj st t1 g1).gps_buffer.data.getLast? = some s1 ∧
        (setGpsData p aok cg proj (setGpsData p aok cg proj st t1 g1) t2
          g2).gps_buffer.data.getLast? = some s2 ∧ s1.time_us ≤ s2.time_us) ∧
    (∀ t1 t2 d1 d2, st.baro_buffer_fail = false →
      ¬st.baro_buffer.get_length < st.obs_buffer_length →
      u64sub t1 st.time_last_baro > st.min_obs_interval_us →
      u64sub t2 t1 > st.min_obs_interval_us → t1 ≤ t2 → t2 < 2 ^ 64 →
      p.baro_delay_ms * 1000 + p.filter_update_period_ms * 1000 / 2 ≤ t1 →
      ∃ s1 s2, (setBaroData p aok st t1 d1).baro_buffer.data.getLast? = some s1 ∧
        (setBaroData p aok (setBaroData p aok st t1 d1) t2 d2).baro_buffer.data.getLast? =
          some s2 ∧ s1.time_us ≤ s2.time_us) ∧
    (∀ t1 t2 d1 d2, st.range_buffer_fail = false →
      ¬st.range_buffer.get_length < st.obs_buffer_length →
      u64sub t1 st.time_last_range > st.min_obs_interval_us →
      u64sub t2 t1 > st.min_obs_interval_us → t1 ≤ t2 → t2 < 2 ^ 64 →
      p.range_delay_ms * 1000 ≤ t1 →
      ∃ s1 s2, (setRangeData p aok st t1 d1).range_buffer.data.getLast? = some s1 ∧
        (setRangeData p aok (setRangeData p aok st t1 d1) t2 d2).range_buffer.data.getLast? =
          some s2 ∧ s1.time_us ≤ s2.time_us) ∧
    (∀ t1 t2 a1 a2 q1 q2, st.airspeed_buffer_fail = false →
      ¬st.airspeed_buffer.get_length < st.obs_buffer_length →
      u64sub t1 st.time_last_airspeed > st.min_obs_interval_us →
      u64sub t2 t1 > st.min_obs_interval_us → t1 ≤ t2 → t2 < 2 ^ 64 →
      p.airspeed_delay_ms * 1000 + p.filter_update_period_ms * 1000 / 2 ≤ t1 →
      ∃ s1 s2, (setAirspeedData p aok st t1 a1 q1).airspeed_buffer.data.getLast? =
          some s1 ∧
        (setAirspeedData p aok (setAirspeedData p aok st t1 a1 q1) t2 a2
          q2).airspeed_buffer.data.getLast? = some s2 ∧ s1.time_us ≤ s2.time_us) ∧
    (∀ t1 t2 e1m e2m, st.ev_buffer_fail = false →
      ¬st.ext_vision_buffer.get_length < st.obs_buffer_length →
      u64sub t1 st.time_last_ext_vision > st.min_obs_interval_us →
      u64sub t2 t1 > st.min_obs_interval_us → t1 ≤ t2 → t2 < 2 ^ 64 →
      p.ev_delay_ms * 1000 ≤ t1 →
      ∃ s1 s2, (setExtVisionData p aok st t1 e1m).ext_vision_buffer.data.getLast? =
          some s1 ∧
        (setExtVisionData p aok (setExtVisionData p aok st t1 e1m) t2
          e2m).ext_vision_buffer.data.getLast? = some s2 ∧ s1.time_us ≤ s2.time_us) ∧
    (∀ t1 t2 d1 d2 v1 v2, st.auxvel_buffer_fail = false →
      ¬st.auxvel_buffer.get_length < st.obs_buffer_length →
      u64sub t1 st.time_last_auxvel > st.min_obs_interval_us →
      u64sub t2 t1 > st.min_obs_interval_us → t1 ≤ t2 → t2 < 2 ^ 64 →
      p.auxvel_delay_ms * 1000 + p.filter_update_period_ms * 1000 / 2 ≤ t1 →
      ∃ s1 s2, (setAuxVelData p aok st t1 d1 v1).auxvel_buffer.data.getLast? = some s1 ∧
        (setAuxVelData p aok (setAuxVelData p aok st t1 d1 v1) t2 d2
          v2).auxvel_buffer.data.getLast? = some s2 ∧ s1.time_us ≤ s2.time_us) ∧
    (∀ t1 t2 f1 f2, st.flow_buffer_fail = false →
      ¬st.flow_buffer.get_length < st.obs_buffer_length →
      u64sub t1 st.time_last_optflow > st.min_obs_interval_us →
      u64sub t2 t1 > st.min_obs_interval_us → t1 ≤ t2 → t2 < 2 ^ 64 →
      p.flow_delay_ms * 1000 + flow_message.dt f1 / 2 ≤ t1 →
      p.flow_delay_ms * 1000 + flow_message.dt f2 / 2 ≤ t2 →
      flow_message.dt f2 / 2 ≤ flow_message.dt f1 / 2 + (t2 - t1) →
      ∃ s1 s2, (setOpticalFlowData p aok false st t1 f1).flow_buffer.data.getLast? =
          some s1 ∧
        (setOpticalFlowData p aok false (setOpticalFlowData p aok false st t1 f1) t2
          f2).flow_buffer.data.getLast? = some s2 ∧ s1.time_us ≤ s2.time_us) := by
  refine ⟨?_, ?_, ?_, ?_, ?_, ?_, ?_, ?_⟩
  · exact fun t1 t2 d1 d2 hf hc hr1 hr2 hle hb hoff =>
      setMagData_mono p aok st t1 t2 d1 d2 hi hf hc hr1 hr2 hle hb hoff
  · exact fun t1 t2 g1 g2 hf hc hr1 hr2 hn hx1 hx2 hm hb hoff =>
      setGpsData_mono p aok cg proj st t1 t2 g1 g2 hi hf hc hr1 hr2 hn hx1 hx2 hm hb hoff
  · exact fun t1 t2 d1 d2 hf hc hr1 hr2 hle hb hoff =>
      setBaroData_mono p aok st t1 t2 d1 d2 hi hf hc hr1 hr2 hle hb hoff
  · exact fun t1 t2 d1 d2 hf hc hr1 hr2 hle hb hoff =>
      setRangeData_mono p aok st t1 t2 d1 d2 hi hf hc hr1 hr2 hle hb hoff
  · exact fun t1 t2 a1 a2 q1 q2 hf hc hr1 hr2 hle hb hoff =>
      setAirspeedData_mono p aok st t1 t2 a1 a2 q1 q2 hi hf hc hr1 hr2 hle hb hoff
  · exact fun t1 t2 e1m e2m hf hc hr1 hr2 hle hb hoff =>
      setExtVisionData_mono p aok st t1 t2 e1m e2m hi hf hc hr1 hr2 hle hb hoff
  · exact fun t1 t2 d1 d2 v1 v2 hf hc hr1 hr2 hle hb hoff =>
      setAuxVelData_mono p aok st t1 t2 d1 d2 v1 v2 hi hf hc hr1 hr2 hle hb hoff
  · exact fun t1 t2 f1 f2 hf hc hr1 hr2 hle hb hoff1 hoff2 hdt =>
      setOpticalFlowData_mono p aok st t1 t2 f1 f2 hi hf hc hr1 hr2 hle hb hoff1
        hoff2 hdt

/-- C8 witness: the mag conjunct and the (dt-bounded) flow conjunct of the
amended claim at concrete inputs. -/
theorem C8_witness :
    (∃ s1 s2,
      (setMagData p0 true baseState 30000 ⟨1, 1, 1⟩).mag_buffer.data.getLast? = some s1 ∧
      (setMagData p0 true (setMagData p0 true baseState 30000 ⟨1, 1, 1⟩) 60000
        ⟨2, 2, 2⟩).mag_buffer.data.getLast? = some s2 ∧ s1.time_us ≤ s2.time_us) ∧
    (∃ s1 s2,
      (setOpticalFlowData p0 true false baseState 30000 fm81).flow_buffer.data.getLast? =
        some s1 ∧
      (setOpticalFlowData p0 true false
        (setOpticalFlowData p0 true false baseState 30000 fm81) 60000
        fm81).flow_buffer.data.getLast? = some s2 ∧ s1.time_us ≤ s2.time_us) :=
  ⟨(C8_theorem p0 true false (fun x _ => (x, x)) baseState (by decide)).1
      30000 60000 ⟨1, 1, 1⟩ ⟨2, 2, 2⟩ (by decide) (by decide) (by decide) (by decide)
      (by decide) (by decide) (by decide),
   (C8_theorem p0 true false (fun x _ => (x, x)) baseState (by decide)).2.2.2.2.2.2.2
      30000 60000 fm81 fm81 (by decide) (by decide) (by decide) (by decide)
      (by decide) (by decide) (by decide) (by decide) (by decide)⟩

end ECL
